import Mathlib

/-!
Verification of the artifact-validation and report-composition engine of the
founder-skills repository (three `compose_report.py` variants: deck-review,
ic-sim, market-sizing).

The Python scripts are shallowly embedded: JSON values become an inductive
`JVal`, JSON numbers (ints and floats alike) are modelled as exact rationals,
and every Python operation that can raise on an ill-typed operand returns
`Except PyErr`. An artifact slot is `Missing` (the loader returned `None`),
`Corrupt` (the `_CORRUPT` sentinel) or `val v` (the parsed JSON document).
-/

/-- Exact rational number as an unnormalized fraction with positive
denominator (every constructor and operation below keeps `den` positive).
Arithmetic is plain integer cross-multiplication, so every operation
reduces inside the kernel; value equality and order are the `qeq`/`qlt`/`qle`
tests, which identify `2/4` with `1/2`. -/
structure PyNum where
  num : Int
  den : Int
  deriving Repr, DecidableEq

instance : OfNat PyNum n := ⟨⟨(n : Int), 1⟩⟩

instance : Neg PyNum := ⟨fun q => ⟨-q.num, q.den⟩⟩

/-- Embed an integer. -/
def PyNum.ofInt (n : Int) : PyNum := ⟨n, 1⟩

instance : Add PyNum := ⟨fun a b => ⟨a.num * b.den + b.num * a.den, a.den * b.den⟩⟩

instance : Sub PyNum := ⟨fun a b => ⟨a.num * b.den - b.num * a.den, a.den * b.den⟩⟩

instance : Mul PyNum := ⟨fun a b => ⟨a.num * b.num, a.den * b.den⟩⟩

/-- Exact division (sign moved to the numerator to keep `den` positive). -/
def PyNum.divQ (a b : PyNum) : PyNum :=
  if b.num < 0 then ⟨-(a.num * b.den), a.den * (-b.num)⟩ else ⟨a.num * b.den, a.den * b.num⟩

instance : Div PyNum := ⟨PyNum.divQ⟩

/-- Value equality of fractions. -/
def PyNum.qeq (a b : PyNum) : Bool := a.num * b.den == b.num * a.den

/-- Value order of fractions (positive denominators). -/
def PyNum.qlt (a b : PyNum) : Bool := decide (a.num * b.den < b.num * a.den)

/-- Value order of fractions (positive denominators). -/
def PyNum.qle (a b : PyNum) : Bool := decide (a.num * b.den ≤ b.num * a.den)

/-- Structural integer power (kernel-computable). -/
def intPow (b : Int) : Nat → Int
  | 0 => 1
  | k + 1 => b * intPow b k

/-- Whitespace characters recognised by Python's `\s` (ASCII range). -/
def isWsChar (c : Char) : Bool :=
  c == ' ' || c == '\t' || c == '\n' || c == '\r' || c == Char.ofNat 11 || c == Char.ofNat 12

/-- Characters of a string, in order. -/
def strChars (s : String) : List Char := s.data

/-- Python `s.lower()` (ASCII case mapping, as every embedded call site
feeds ASCII); implemented over the character list so it computes inside the
kernel. -/
def strLower (s : String) : String := String.mk (s.data.map Char.toLower)

/-- Python `s.upper()`. -/
def strUpper (s : String) : String := String.mk (s.data.map Char.toUpper)

/-- Python `s.strip()`. -/
def strTrim (s : String) : String :=
  String.mk (((s.data.dropWhile isWsChar).reverse.dropWhile isWsChar).reverse)

/-- Python `s.replace(a, b)` for one-character patterns (the only shape the
scripts use). -/
def replaceChar (a b : Char) (s : String) : String :=
  String.mk (s.data.map (fun c => if c == a then b else c))

/-- Whether `needle` starts `hay` (character lists). -/
def charsStartWith : List Char → List Char → Bool
  | [], _ => true
  | _ :: _, [] => false
  | a :: as, b :: bs => a == b && charsStartWith as bs

/-- Whether `needle` occurs contiguously in `hay` (character lists). -/
def charsContain (needle : List Char) : List Char → Bool
  | [] => charsStartWith needle []
  | hay@(_ :: rest) => charsStartWith needle hay || charsContain needle rest

/-- Python `s.endswith(suffix)`. -/
def strEndsWith (s suf : String) : Bool :=
  charsStartWith suf.data.reverse s.data.reverse

/-- Python `s[: len(s) - n]` (the tail removal of `endswith` stripping). -/
def strDropRight (s : String) (n : Nat) : String :=
  String.mk (s.data.take (s.data.length - n))

/-- Whitespace-separated words of a string (the `re.sub`/`strip` collapse
reads off these). -/
def wsWordsAux : List Char → List Char → List String
  | [], acc => if acc.isEmpty then [] else [String.mk acc.reverse]
  | c :: rest, acc =>
    if isWsChar c then
      (if acc.isEmpty then wsWordsAux rest [] else String.mk acc.reverse :: wsWordsAux rest [])
    else wsWordsAux rest (c :: acc)

/-- Python `needle in hay` on strings. -/
def strSub (needle hay : String) : Bool :=
  charsContain (strChars needle) (strChars hay)

/-- A JSON value as `json.load` produces it. JSON numbers are modelled as
exact rationals; Python distinguishes `int` from `float` (e.g. when
rendering), which this model conflates, and none of the proved statements
depends on that rendering. Object fields are kept in insertion order with
distinct keys, as a parsed JSON object has. -/
inductive JVal where
  | null : JVal
  | bool (b : Bool) : JVal
  | num (q : PyNum) : JVal
  | str (s : String) : JVal
  | arr (elems : List JVal) : JVal
  | obj (fields : List (String × JVal)) : JVal
  deriving Repr

/-- A Python exception class, as far as the embedded code distinguishes them. -/
inductive PyErr where
  | attrError : PyErr
  | typeError : PyErr
  | valueError : PyErr
  deriving Repr, DecidableEq


/-- Python truthiness of a JSON value. -/
def JVal.truthy : JVal → Bool
  | .null => false
  | .bool b => b
  | .num q => q.num != 0
  | .str s => s != ""
  | .arr xs => !xs.isEmpty
  | .obj fs => !fs.isEmpty

/-- Lookup in a parsed JSON object (`dict.get` on a dict with string keys). -/
def dGet (fields : List (String × JVal)) (key : String) : Option JVal :=
  (fields.find? (fun p => p.1 == key)).map (·.2)

/-- Python `v.get(key, default)`: only a dict has `.get`; anything else
raises `AttributeError`. -/
def pyGet (v : JVal) (key : String) (default : JVal) : Except PyErr JVal :=
  match v with
  | .obj fs => .ok ((dGet fs key).getD default)
  | _ => .error .attrError

/-- Python `v.get(key, default) if isinstance(v, dict) else default`
(the guarded access some rules use): never raises. -/
def objGetD (v : JVal) (key : String) (default : JVal) : JVal :=
  match v with
  | .obj fs => (dGet fs key).getD default
  | _ => default

/-- Python `v.keys()`: only a dict has `.keys`. -/
def pyKeys (v : JVal) : Except PyErr (List String) :=
  match v with
  | .obj fs => .ok (fs.map (·.1))
  | _ => .error .attrError

/-- The scripts' `_as_list`: coerce to list, `[]` if not a list. -/
def _as_list (v : JVal) : List JVal :=
  match v with
  | .arr xs => xs
  | _ => []

/-- The scripts' `_as_dict`: coerce to dict, `{}` if not a dict (the result
is the dict's field list). -/
def _as_dict (v : JVal) : List (String × JVal) :=
  match v with
  | .obj fs => fs
  | _ => []

/-- Python `==` between JSON values as the embedded rules exercise it:
booleans compare equal to the numbers 0/1 as in Python. Every call site
compares a value against a scalar (a string constant or a
hashability-checked set element), so Python's structural equality of two
containers — which would be `True` for equal lists — is never reached; the
container cases here answer `false` only for those unreachable pairings. -/
def pyEq (a b : JVal) : Bool :=
  match a, b with
  | .null, .null => true
  | .bool x, .bool y => x == y
  | .bool x, .num q => PyNum.qeq (if x then 1 else 0) q
  | .num q, .bool x => PyNum.qeq q (if x then 1 else 0)
  | .num p, .num q => PyNum.qeq p q
  | .str s, .str t => s == t
  | _, _ => false

/-- Python hashability of a JSON value: lists and dicts are unhashable. -/
def pyHashable : JVal → Bool
  | .arr _ => false
  | .obj _ => false
  | _ => true

/-- Numeric coercion used by Python's comparison operators: ints, floats and
bools order-compare with numbers, everything else raises `TypeError`. -/
def pyNum? : JVal → Option PyNum
  | .num q => some q
  | .bool b => some (if b then 1 else 0)
  | _ => none

/-- Python `v > r` against a numeric constant. -/
def pyGtR (v : JVal) (r : PyNum) : Except PyErr Bool :=
  match pyNum? v with
  | some q => .ok (PyNum.qlt r q)
  | none => .error .typeError

/-- Python `v < r` against a numeric constant. -/
def pyLtR (v : JVal) (r : PyNum) : Except PyErr Bool :=
  match pyNum? v with
  | some q => .ok (PyNum.qlt q r)
  | none => .error .typeError

/-- Python `lo <= v <= hi` (the chained comparison raises on a non-numeric
middle operand). -/
def pyBetween (lo : PyNum) (v : JVal) (hi : PyNum) : Except PyErr Bool :=
  match pyNum? v with
  | some q => .ok (PyNum.qle lo q && PyNum.qle q hi)
  | none => .error .typeError

/-- Python `v.lower()`: only a string has `.lower`. -/
def pyLowerStr (v : JVal) : Except PyErr String :=
  match v with
  | .str s => .ok (strLower s)
  | _ => .error .attrError

/-- Decimal digits of a natural number. -/
def natDigits (n : Nat) : String := toString n

/-- Python `str(...)` of an integer-valued number; non-integral rationals
(floats) are rendered as `num/den`, an approximation none of the proved
statements touches. -/
def ratStr (q : PyNum) : String :=
  if q.den == 1 then toString q.num else toString q.num ++ "/" ++ toString q.den

mutual

/-- Python `repr(...)` of a JSON value (used inside container renderings). -/
def pyRepr : JVal → String
  | .null => "None"
  | .bool true => "True"
  | .bool false => "False"
  | .num q => ratStr q
  | .str s => "'" ++ s ++ "'"
  | .arr xs => "[" ++ pyReprList xs ++ "]"
  | .obj fs => "\x7b" ++ pyReprFields fs ++ "\x7d"

/-- Comma-separated `repr`s of a list's elements. -/
def pyReprList : List JVal → String
  | [] => ""
  | [x] => pyRepr x
  | x :: rest => pyRepr x ++ ", " ++ pyReprList rest

/-- Comma-separated `repr`s of a dict's items. -/
def pyReprFields : List (String × JVal) → String
  | [] => ""
  | [(k, v)] => "'" ++ k ++ "': " ++ pyRepr v
  | (k, v) :: rest => "'" ++ k ++ "': " ++ pyRepr v ++ ", " ++ pyReprFields rest

end

/-- Python `str(...)` of a JSON value (f-string interpolation). -/
def pyStr (v : JVal) : String :=
  match v with
  | .str s => s
  | _ => pyRepr v

/-- Python list membership against a fixed set of string constants
(`x in known_set`): a non-string value never equals a string. -/
def pyMemStrSet (v : JVal) (set : List String) : Bool :=
  match v with
  | .str s => set.contains s
  | _ => false


/-! ## Artifact store

`_load_artifact` returns `None` for a missing file, the `_CORRUPT` sentinel
for unparseable JSON, and the parsed value otherwise (which need not be a
dict: `json.load` can yield any JSON value at top level). -/

/-- State of one artifact slot after loading. -/
inductive Artifact where
  | missing : Artifact
  | corrupt : Artifact
  | val (v : JVal) : Artifact
  deriving Repr

/-- The scripts' `_is_stub`: a dict whose `skipped` field is the JSON
literal `true` (Python `data.get("skipped") is True`). -/
def _is_stub (v : JVal) : Bool :=
  match v with
  | .obj fs =>
    match dGet fs "skipped" with
    | some (.bool true) => true
    | _ => false
  | _ => false

/-- The scripts' `_usable`: loaded, not corrupt, and not a stub. -/
def Artifact.usable : Artifact → Bool
  | .missing => false
  | .corrupt => false
  | .val v => !_is_stub v

/-- A finding: the scripts' warning dict `{code, message, severity}`. -/
structure Warning where
  code : String
  message : String
  severity : String
  deriving Repr, DecidableEq

/-- Dict lookup in a severity table (an association list with string keys,
in the table's source order). -/
def lookupStr (table : List (String × String)) (key : String) : Option String :=
  (table.find? (fun p => p.1 == key)).map (·.2)

/-- Build a warning the way each script's `_warn` does: the severity comes
from that script's `WARNING_SEVERITY` table, defaulting to `"medium"`. -/
def mkWarn (table : List (String × String)) (code message : String) : Warning :=
  ⟨code, message, (lookupStr table code).getD "medium"⟩

/-- Presence/integrity findings: the loop every `validate_artifacts` starts
with — `CORRUPT_ARTIFACT` for the `_CORRUPT` sentinel, else
`MISSING_ARTIFACT` for `None`, per required artifact in order. -/
def requiredPresence (table : List (String × String)) (required : List String)
    (get : String → Artifact) : List Warning :=
  List.flatten (required.map (fun name =>
    match get name with
    | .corrupt => [mkWarn table "CORRUPT_ARTIFACT" ("Artifact has invalid JSON: " ++ name)]
    | .missing => [mkWarn table "MISSING_ARTIFACT" ("Required artifact missing: " ++ name)]
    | .val _ => []))

/-- Python `(v or "").lower()`: the falsy-guard pattern the stage rules use.
A truthy non-string still raises `AttributeError`. -/
def pyOrEmptyLower (v : JVal) : Except PyErr String :=
  if v.truthy then pyLowerStr v else .ok ""

/-- The stage normalization `(x or "").lower().replace("-", "_").replace(" ", "_")`. -/
def normStage (v : JVal) : Except PyErr String := do
  let s ← pyOrEmptyLower v
  return replaceChar ' ' '_' (replaceChar '-' '_' s)

/-- Python `", ".join(strings)`. -/
def joinWith (sep : String) : List String → String
  | [] => ""
  | [s] => s
  | s :: rest => s ++ sep ++ joinWith sep rest

/-! ## Deck-review variant (`skills/deck-review/scripts/compose_report.py`) -/

namespace DeckReview

/-- The deck-review `WARNING_SEVERITY` table. -/
def WARNING_SEVERITY : List (String × String) :=
  [ ("CORRUPT_ARTIFACT", "high"),
    ("MISSING_ARTIFACT", "high"),
    ("CHECKLIST_FAILURES_CRITICAL", "high"),
    ("STAGE_MISMATCH", "medium"),
    ("SLIDE_COUNT_EXTREME", "medium"),
    ("UNCITED_CRITIQUE", "medium"),
    ("AI_CRITERIA_SKIPPED", "medium"),
    ("STAGE_OUT_OF_SCOPE", "low") ]

/-- The deck-review `KNOWN_STAGES` set. -/
def KNOWN_STAGES : List String := ["pre_seed", "seed", "series_a"]

/-- The deck-review `REQUIRED_ARTIFACTS` list (`OPTIONAL_ARTIFACTS` is empty). -/
def REQUIRED_ARTIFACTS : List String :=
  ["deck_inventory.json", "stage_profile.json", "slide_reviews.json", "checklist.json"]

/-- The deck-review `_warn`. -/
def _warn (code message : String) : Warning := mkWarn WARNING_SEVERITY code message

/-- The artifact map `compose` hands to `validate_artifacts`: one slot per
name in `REQUIRED_ARTIFACTS`. -/
structure Arts where
  deck_inventory : Artifact
  stage_profile : Artifact
  slide_reviews : Artifact
  checklist : Artifact

/-- Python `artifacts.get(name)` over the loaded map. -/
def Arts.get (a : Arts) (name : String) : Artifact :=
  if name = "deck_inventory.json" then a.deck_inventory
  else if name = "stage_profile.json" then a.stage_profile
  else if name = "slide_reviews.json" then a.slide_reviews
  else if name = "checklist.json" then a.checklist
  else .missing

/-- Check 3, `CHECKLIST_FAILURES_CRITICAL`: more than 10 failed items. -/
def rule_checklist_failures (checklist : Artifact) : Except PyErr (List Warning) :=
  match checklist with
  | .val c =>
    if _is_stub c then .ok [] else do
      let s ← pyGet c "summary" .null
      let fail_count := (dGet (_as_dict s) "fail").getD (.num 0)
      let gt ← pyGtR fail_count 10
      if gt then
        .ok [_warn "CHECKLIST_FAILURES_CRITICAL"
          ("Checklist has " ++ pyStr fail_count ++ " failures (>10 — critical threshold)")]
      else .ok []
  | _ => .ok []

/-- Check 4, `STAGE_MISMATCH`: claimed and detected stage both present and
different after normalization. -/
def rule_stage_mismatch (inventory profile : Artifact) : Except PyErr (List Warning) :=
  match inventory, profile with
  | .val inv, .val prof =>
    if _is_stub inv || _is_stub prof then .ok [] else do
      let cv ← pyGet inv "claimed_stage" .null
      let claimed ← normStage cv
      let dv ← pyGet prof "detected_stage" .null
      let detected ← normStage dv
      if claimed != "" && detected != "" && claimed != detected then
        .ok [_warn "STAGE_MISMATCH"
          ("Deck claims '" ++ claimed ++ "' but analysis detected '" ++ detected ++ "'")]
      else .ok []
  | _, _ => .ok []

/-- Detected-stage half of check 5. -/
def outOfScopeFromProfile (profile : Artifact) : Except PyErr (List String) :=
  match profile with
  | .val p =>
    if _is_stub p then pure [] else do
      let dv ← pyGet p "detected_stage" .null
      let detected ← normStage dv
      pure (if detected != "" && !KNOWN_STAGES.contains detected then [detected] else [])
  | _ => pure []

/-- Claimed-stage half of check 5, deduplicating against the detected one. -/
def outOfScopeFromInventory (inventory : Artifact) (fromProfile : List String) :
    Except PyErr (List String) :=
  match inventory with
  | .val i =>
    if _is_stub i then pure [] else do
      let cv ← pyGet i "claimed_stage" .null
      let claimed ← normStage cv
      pure (if claimed != "" && !KNOWN_STAGES.contains claimed
            && !fromProfile.contains claimed then [claimed] else [])
  | _ => pure []

/-- Check 5, `STAGE_OUT_OF_SCOPE`: detected then claimed stage outside the
calibrated set, deduplicated, one finding for the joined list. -/
def rule_stage_out_of_scope (inventory profile : Artifact) : Except PyErr (List Warning) := do
  let fromProfile ← outOfScopeFromProfile profile
  let fromInventory ← outOfScopeFromInventory inventory fromProfile
  let out := fromProfile ++ fromInventory
  if out.isEmpty then pure [] else
    pure [_warn "STAGE_OUT_OF_SCOPE"
      ("Stage '" ++ joinWith ", " out ++ "' is outside calibrated range "
        ++ "(pre_seed, seed, series_a). Results may be less precise.")]

/-- Check 6, `SLIDE_COUNT_EXTREME`: fewer than 5 or more than 20 slides. -/
def rule_slide_count (inventory : Artifact) : Except PyErr (List Warning) :=
  match inventory with
  | .val inv =>
    if _is_stub inv then .ok [] else do
      let total ← pyGet inv "total_slides" (.num 0)
      let lt ← pyLtR total 5
      if lt then
        .ok [_warn "SLIDE_COUNT_EXTREME"
          ("Deck has only " ++ pyStr total ++ " slides (<5 — too few for a complete pitch)")]
      else do
        let gt ← pyGtR total 20
        if gt then
          .ok [_warn "SLIDE_COUNT_EXTREME"
            ("Deck has " ++ pyStr total ++ " slides (>20 — sharp engagement drop-off after ~18)")]
        else .ok []
  | _ => .ok []

/-- Check 7 on one review entry. -/
def uncitedOne (review : JVal) : Except PyErr (List Warning) := do
  let w ← pyGet review "weaknesses" .null
  let r ← pyGet review "best_practice_refs" .null
  if !(_as_list w).isEmpty && (_as_list r).isEmpty then do
    let sn ← pyGet review "slide_number" (.str "?")
    pure [_warn "UNCITED_CRITIQUE"
      ("Slide " ++ pyStr sn ++ " has critiques without best-practice citations")]
  else pure []

/-- Loop body of check 7: one pass over the `reviews` list. -/
def uncitedLoop : List JVal → Except PyErr (List Warning)
  | [] => .ok []
  | review :: rest => do
    let here ← uncitedOne review
    let more ← uncitedLoop rest
    pure (here ++ more)

/-- Check 7, `UNCITED_CRITIQUE`: a slide review with weaknesses but no
best-practice references. -/
def rule_uncited (reviews : Artifact) : Except PyErr (List Warning) :=
  match reviews with
  | .val r =>
    if _is_stub r then .ok [] else do
      let rl ← pyGet r "reviews" .null
      uncitedLoop (_as_list rl)
  | _ => .ok []

/-- The AI criteria ids of check 8. -/
def aiIds : List String :=
  ["ai_retention_rebased", "ai_cost_to_serve_shown", "ai_defensibility_beyond_model",
   "ai_responsible_controls"]

/-- Filter of check 8: `[i for i in items if i.get("id") in ai_ids]`. -/
def filterAiItems : List JVal → Except PyErr (List JVal)
  | [] => .ok []
  | i :: rest => do
    let idv ← pyGet i "id" .null
    let more ← filterAiItems rest
    pure (if pyMemStrSet idv aiIds then i :: more else more)

/-- Test of check 8: `all(i.get("status") == "not_applicable" for i in ai_items)`. -/
def allStatusNA : List JVal → Except PyErr Bool
  | [] => .ok true
  | i :: rest => do
    let st ← pyGet i "status" .null
    if pyEq st (.str "not_applicable") then allStatusNA rest else pure false

/-- Check 8, `AI_CRITERIA_SKIPPED`: AI company but every AI criterion marked
not applicable. -/
def rule_ai_criteria (profile checklist : Artifact) : Except PyErr (List Warning) :=
  match profile, checklist with
  | .val p, .val c =>
    if _is_stub p || _is_stub c then .ok [] else do
      let isAi ← pyGet p "is_ai_company" (.bool false)
      if isAi.truthy then do
        let itemsv ← pyGet c "items" .null
        let aiItems ← filterAiItems (_as_list itemsv)
        if !aiItems.isEmpty then do
          let allNA ← allStatusNA aiItems
          if allNA then
            .ok [_warn "AI_CRITERIA_SKIPPED"
              "Company detected as AI-first but all AI criteria marked not_applicable"]
          else .ok []
        else .ok []
      else .ok []
  | _, _ => .ok []

/-- The deck-review `validate_artifacts`: the presence loop and checks 3-8
in source order, aborting at the first raised exception. -/
def validate_artifacts (arts : Arts) : Except PyErr (List Warning) := do
  let w1 := requiredPresence WARNING_SEVERITY REQUIRED_ARTIFACTS arts.get
  let w3 ← rule_checklist_failures arts.checklist
  let w4 ← rule_stage_mismatch arts.deck_inventory arts.stage_profile
  let w5 ← rule_stage_out_of_scope arts.deck_inventory arts.stage_profile
  let w6 ← rule_slide_count arts.deck_inventory
  let w7 ← rule_uncited arts.slide_reviews
  let w8 ← rule_ai_criteria arts.stage_profile arts.checklist
  return w1 ++ w3 ++ w4 ++ w5 ++ w6 ++ w7 ++ w8

/-- The `artifacts_missing` list `compose` computes: names whose slot is
`None` (the `_CORRUPT` sentinel is not `None`, so a corrupt artifact is
never listed). -/
def artifacts_missing (arts : Arts) : List String :=
  REQUIRED_ARTIFACTS.filter (fun n =>
    match arts.get n with
    | .missing => true
    | _ => false)

/-- The `artifacts_found` list `compose` computes: loaded and not corrupt. -/
def artifacts_found (arts : Arts) : List String :=
  REQUIRED_ARTIFACTS.filter (fun n =>
    match arts.get n with
    | .val _ => true
    | _ => false)

end DeckReview

/-! ## Dates (for the ic-sim staleness rule)

`datetime.strptime(s[:10], "%Y-%m-%d")` is modelled by `parseDate10`, which
accepts the zero-padded `YYYY-MM-DD` form (the one the artifacts carry) and
yields the day count since 1970-01-01; `datetime.now()` becomes an explicit
parameter `now` measured in (possibly fractional) days since the epoch. -/

/-- Value of a decimal digit. -/
def digitVal (c : Char) : Option Nat :=
  if c.isDigit then some (c.toNat - 48) else none

/-- Gregorian leap year. -/
def isLeap (y : Nat) : Bool :=
  (y % 4 == 0 && y % 100 != 0) || y % 400 == 0

/-- Days in a month. -/
def daysInMonth (y : Nat) (m : Nat) : Nat :=
  if m == 2 then (if isLeap y then 29 else 28)
  else if m == 4 || m == 6 || m == 9 || m == 11 then 30
  else 31

/-- Days since 1970-01-01 of a civil date (years ≥ 1, so every division here
is on non-negative operands). -/
def daysFromCivil (year : Nat) (month day : Nat) : Int :=
  let y : Int := if month ≤ 2 then (year : Int) - 1 else (year : Int)
  let era : Int := y / 400
  let yoe : Int := y - era * 400
  let mp : Int := ((month : Int) + 9) % 12
  let doy : Int := (153 * mp + 2) / 5 + (day : Int) - 1
  let doe : Int := yoe * 365 + yoe / 4 - yoe / 100 + doy
  era * 146097 + doe - 719468

/-- Parse the first ten characters as a zero-padded ISO date, as
`strptime(s[:10], "%Y-%m-%d")`; `none` models the caught `ValueError`. -/
def parseDate10 (s : String) : Option Int :=
  match (s.take 10).toList with
  | [y1, y2, y3, y4, h1, m1, m2, h2, d1, d2] =>
    if h1 == '-' && h2 == '-' then do
      let a ← digitVal y1
      let b ← digitVal y2
      let c ← digitVal y3
      let d ← digitVal y4
      let mt ← digitVal m1
      let mo ← digitVal m2
      let dt ← digitVal d1
      let dd ← digitVal d2
      let year := 1000 * a + 100 * b + 10 * c + d
      let month := 10 * mt + mo
      let day := 10 * dt + dd
      if 1 ≤ month && month ≤ 12 && 1 ≤ day && day ≤ daysInMonth year month && 1 ≤ year then
        some (daysFromCivil year month day)
      else none
    else none
  | _ => none

/-! ## IC-simulation variant (`skills/ic-sim/scripts/compose_report.py`) -/

namespace IcSim

/-- The ic-sim `WARNING_SEVERITY` table. -/
def WARNING_SEVERITY : List (String × String) :=
  [ ("CORRUPT_ARTIFACT", "high"),
    ("MISSING_ARTIFACT", "high"),
    ("BLOCKING_CONFLICT", "high"),
    ("ORPHANED_CONFLICT", "high"),
    ("VERDICT_SCORE_MISMATCH", "high"),
    ("PARTNER_UNANIMITY", "medium"),
    ("ZERO_APPLICABLE", "medium"),
    ("STALE_IMPORT", "medium"),
    ("LOW_EVIDENCE", "medium"),
    ("FUND_VALIDATION_ERROR", "medium"),
    ("DEGRADED_ASSESSMENT", "medium"),
    ("CONSENSUS_SCORE_MISMATCH", "medium"),
    ("UNANIMOUS_VERDICT_MISMATCH", "medium"),
    ("SHALLOW_ASSESSMENT", "medium"),
    ("HIGH_NA_COUNT", "medium"),
    ("SCHEMA_DRIFT", "low"),
    ("STAGE_OUT_OF_SCOPE", "low"),
    ("PARTNER_CONVERGENCE", "info"),
    ("SEQUENTIAL_FALLBACK", "info") ]

/-- The ic-sim `KNOWN_STAGES` set. -/
def KNOWN_STAGES : List String := ["pre_seed", "seed", "series_a"]

/-- The ic-sim `REQUIRED_ARTIFACTS` list. -/
def REQUIRED_ARTIFACTS : List String :=
  ["startup_profile.json", "fund_profile.json", "conflict_check.json",
   "discussion.json", "score_dimensions.json"]

/-- The ic-sim `PARTNER_ASSESSMENT_FILES` list. -/
def PARTNER_ASSESSMENT_FILES : List String :=
  ["partner_assessment_visionary.json", "partner_assessment_operator.json",
   "partner_assessment_analyst.json"]

/-- The ic-sim `EXPECTED_KEYS` table, in source (dict insertion) order. -/
def EXPECTED_KEYS : List (String × List String) :=
  [ ("startup_profile.json",
      ["company_name", "simulation_date", "stage", "one_liner", "sector", "geography",
       "business_model", "funding_history", "current_raise", "key_metrics",
       "materials_provided", "founded", "team", "website", "competitors",
       "product_description", "team_highlights"]),
    ("fund_profile.json",
      ["fund_name", "mode", "thesis_areas", "check_size_range", "stage_focus",
       "archetypes", "portfolio", "sources", "validation", "accepted_warnings"]),
    ("conflict_check.json",
      ["portfolio_size", "conflicts", "summary", "validation"]),
    ("discussion.json",
      ["assessment_mode", "partner_verdicts", "debate_sections", "consensus_verdict",
       "key_concerns", "diligence_requirements", "assessment_mode_intentional"]),
    ("score_dimensions.json", ["items", "summary"]),
    ("prior_artifacts.json", ["imported", "skipped", "reason"]) ]

/-- The ic-sim `REQUIRED_KEYS` table. -/
def REQUIRED_KEYS : List (String × List String) :=
  [ ("startup_profile.json", ["company_name", "stage", "one_liner", "sector"]),
    ("fund_profile.json",
      ["fund_name", "mode", "thesis_areas", "check_size_range", "stage_focus",
       "archetypes", "portfolio"]),
    ("conflict_check.json", ["portfolio_size", "conflicts"]),
    ("discussion.json", ["assessment_mode", "partner_verdicts", "consensus_verdict"]),
    ("score_dimensions.json", ["items", "summary"]) ]

/-- Lookup in a keys table (`REQUIRED_KEYS.get(name, set())`). -/
def lookupKeys (table : List (String × List String)) (key : String) : Option (List String) :=
  (table.find? (fun p => p.1 == key)).map (·.2)

/-- The ic-sim `VERDICT_SCORE_RANGES` table. -/
def VERDICT_SCORE_RANGES : List (String × PyNum × PyNum) :=
  [("invest", (75, 100)), ("more_diligence", (50, ⟨749, 10⟩)),
   ("pass", (0, ⟨499, 10⟩))]

/-- Range lookup: Python `verdict in VERDICT_SCORE_RANGES` and the indexed
access (a non-string never equals a string key). -/
def rangeOf (v : JVal) : Option (PyNum × PyNum) :=
  match v with
  | .str s => (VERDICT_SCORE_RANGES.find? (fun p => p.1 == s)).map (·.2)
  | _ => none

/-- Python `repr` of the table's float bounds (all have denominator 1 or 10
and are non-negative, rendered as `75.0` or `74.9`). -/
def pyFloatLit (q : PyNum) : String :=
  if q.den == 1 then toString q.num ++ ".0"
  else if q.den == 10 then toString (q.num / 10) ++ "." ++ toString (q.num % 10)
  else ratStr q

/-- The ic-sim `_warn`. -/
def _warn (code message : String) : Warning := mkWarn WARNING_SEVERITY code message

/-- The ic-sim `_normalize_ws`: collapse whitespace runs and strip. -/
def _normalize_ws (s : String) : String :=
  joinWith " " (wsWordsAux s.data [])

/-- Legal-suffix stripping loop of `_normalize_company` (first match only). -/
def stripLegalSuffix (name : String) : List String → String
  | [] => name
  | suf :: rest =>
    if strEndsWith name suf then strDropRight name suf.data.length
    else stripLegalSuffix name rest

/-- The ic-sim `_normalize_company`. -/
def _normalize_company (s : String) : String :=
  let name := strLower (strTrim s)
  let name := stripLegalSuffix name [" inc.", " inc", " llc", " ltd.", " ltd", " corp.", " corp"]
  joinWith " " (wsWordsAux name.data [])

/-- `_normalize_company` applied to a JSON value: a non-string raises
(`.strip()` on it has no meaning), as in Python. -/
def normalizeCompanyV (v : JVal) : Except PyErr String :=
  match v with
  | .str s => .ok (_normalize_company s)
  | _ => .error .attrError

/-- The ic-sim `_normalize_verdict`: empty for a non-string or blank value. -/
def _normalize_verdict (v : JVal) : String :=
  match v with
  | .str s =>
    if strTrim s == "" then ""
    else replaceChar ' ' '_' (replaceChar '-' '_' (strLower (strTrim s)))
  | _ => ""

/-- The artifact map for ic-sim: required then optional slots. -/
structure Arts where
  startup_profile : Artifact
  fund_profile : Artifact
  conflict_check : Artifact
  discussion : Artifact
  score_dimensions : Artifact
  prior_artifacts : Artifact
  partner_assessment_visionary : Artifact
  partner_assessment_operator : Artifact
  partner_assessment_analyst : Artifact

/-- Python `artifacts.get(name)` over the loaded ic-sim map. -/
def Arts.get (a : Arts) (name : String) : Artifact :=
  if name = "startup_profile.json" then a.startup_profile
  else if name = "fund_profile.json" then a.fund_profile
  else if name = "conflict_check.json" then a.conflict_check
  else if name = "discussion.json" then a.discussion
  else if name = "score_dimensions.json" then a.score_dimensions
  else if name = "prior_artifacts.json" then a.prior_artifacts
  else if name = "partner_assessment_visionary.json" then a.partner_assessment_visionary
  else if name = "partner_assessment_operator.json" then a.partner_assessment_operator
  else if name = "partner_assessment_analyst.json" then a.partner_assessment_analyst
  else .missing

/-- Check 2, `BLOCKING_CONFLICT`. -/
def rule_blocking_conflict (conflict_check : Artifact) : Except PyErr (List Warning) :=
  match conflict_check with
  | .val cc =>
    if _is_stub cc then .ok [] else do
      let sv ← pyGet cc "summary" .null
      match dGet (_as_dict sv) "has_blocking_conflict" with
      | some (.bool true) =>
        .ok [_warn "BLOCKING_CONFLICT"
          "Portfolio has a blocking conflict — cannot proceed with investment"]
      | _ => .ok []
  | _ => .ok []

/-- Portfolio-name set of check 3 (a Python set comprehension; only
membership is consulted, so the model keeps a list). -/
def portfolioNames : List JVal → Except PyErr (List String)
  | [] => .ok []
  | entry :: rest =>
    match entry with
    | .obj fs => do
      let nm ← normalizeCompanyV ((dGet fs "name").getD (.str ""))
      let more ← portfolioNames rest
      pure (nm :: more)
    | _ => portfolioNames rest

/-- Conflict loop of check 3. -/
def orphanLoop (names : List String) : List JVal → Except PyErr (List Warning)
  | [] => .ok []
  | conflict :: rest => do
    let company ← pyGet conflict "company" (.str "")
    let nm ← normalizeCompanyV company
    let here :=
      if names.contains nm then []
      else [_warn "ORPHANED_CONFLICT"
        ("Conflict company '" ++ pyStr company ++ "' not in fund_profile.portfolio"
          ++ " — cross-artifact identity mismatch")]
    let more ← orphanLoop names rest
    pure (here ++ more)

/-- Check 3, `ORPHANED_CONFLICT`. -/
def rule_orphaned (conflict_check fund_profile : Artifact) : Except PyErr (List Warning) :=
  match conflict_check, fund_profile with
  | .val cc, .val fp =>
    if _is_stub cc || _is_stub fp then .ok [] else do
      let pv ← pyGet fp "portfolio" .null
      let names ← portfolioNames (_as_list pv)
      let cv ← pyGet cc "conflicts" .null
      orphanLoop names (_as_list cv)
  | _, _ => .ok []

/-- Check 4, `VERDICT_SCORE_MISMATCH`. -/
def rule_verdict_score (score_dims : Artifact) : Except PyErr (List Warning) :=
  match score_dims with
  | .val sd =>
    if _is_stub sd then .ok [] else do
      let sv ← pyGet sd "summary" .null
      let summary := _as_dict sv
      let score_warnings := _as_list ((dGet summary "warnings").getD .null)
      let conviction_score := (dGet summary "conviction_score").getD (.num 0)
      let verdict := (dGet summary "verdict").getD (.str "")
      let has_zero := score_warnings.any (fun w => pyEq w (.str "ZERO_APPLICABLE_DIMENSIONS"))
      match (if has_zero then none else rangeOf verdict) with
      | some (low, high) => do
        let inR ← pyBetween low conviction_score high
        if !inR && !pyEq verdict (.str "hard_pass") then
          .ok [_warn "VERDICT_SCORE_MISMATCH"
            ("Verdict '" ++ pyStr verdict ++ "' does not match score "
              ++ pyStr conviction_score ++ "% (expected range: "
              ++ pyFloatLit low ++ "%-" ++ pyFloatLit high ++ "%)")]
        else .ok []
      | none => .ok []
  | _ => .ok []

/-- Check 4b, `CONSENSUS_SCORE_MISMATCH`. -/
def rule_consensus_score (discussion score_dims : Artifact) : Except PyErr (List Warning) :=
  match discussion, score_dims with
  | .val d, .val sd =>
    if _is_stub d || _is_stub sd then .ok [] else do
      let cv ← pyGet d "consensus_verdict" .null
      let consensus_v := _normalize_verdict cv
      let sv ← pyGet sd "summary" .null
      let score_v := _normalize_verdict ((dGet (_as_dict sv) "verdict").getD .null)
      if consensus_v != "" && score_v != "" && consensus_v != score_v then do
        let cv2 ← pyGet d "consensus_verdict" .null
        let sv2 ← pyGet sd "summary" .null
        let raw_score := (dGet (_as_dict sv2) "verdict").getD .null
        .ok [_warn "CONSENSUS_SCORE_MISMATCH"
          ("Discussion consensus verdict '" ++ pyStr cv2 ++ "' differs from score verdict '"
            ++ pyStr raw_score ++ "' — review for consistency")]
      else .ok []
  | _, _ => .ok []

/-- The `_POSITIVE_VERDICTS` set of check 4c. -/
def POSITIVE_VERDICTS : List String := ["invest", "more_diligence"]

/-- The `_NEGATIVE_VERDICTS` set of check 4c. -/
def NEGATIVE_VERDICTS : List String := ["pass", "hard_pass"]

/-- Verdict comprehension of check 4c (isinstance- and truthiness-guarded,
so it never raises). -/
def collectPartnerVerdicts : List JVal → List String
  | [] => []
  | pv :: rest =>
    match pv with
    | .obj fs =>
      let v := (dGet fs "verdict").getD .null
      if v.truthy then _normalize_verdict v :: collectPartnerVerdicts rest
      else collectPartnerVerdicts rest
    | _ => collectPartnerVerdicts rest

/-- Check 4c, `UNANIMOUS_VERDICT_MISMATCH`. -/
def rule_unanimous_mismatch (discussion : Artifact) : Except PyErr (List Warning) :=
  match discussion with
  | .val d =>
    if _is_stub d then .ok [] else do
      let cv ← pyGet d "consensus_verdict" .null
      let consensus := _normalize_verdict cv
      let pvv ← pyGet d "partner_verdicts" .null
      let lst := collectPartnerVerdicts (_as_list pvv)
      if !lst.isEmpty then
        let all_positive := lst.all (POSITIVE_VERDICTS.contains ·)
        let all_negative := lst.all (NEGATIVE_VERDICTS.contains ·)
        let consensus_positive := POSITIVE_VERDICTS.contains consensus
        let consensus_negative := NEGATIVE_VERDICTS.contains consensus
        if (all_positive && consensus_negative) || (all_negative && consensus_positive) then do
          let cv2 ← pyGet d "consensus_verdict" .null
          .ok [_warn "UNANIMOUS_VERDICT_MISMATCH"
            ("All " ++ toString lst.length ++ " partners are "
              ++ (if all_positive then "positive" else "negative")
              ++ " but consensus is '" ++ pyStr cv2 ++ "' ("
              ++ (if consensus_negative then "negative" else "positive")
              ++ ") — partner_verdicts or consensus_verdict likely not "
              ++ "updated after debate")]
        else .ok []
      else .ok []
  | _ => .ok []

/-- List comprehension `[pv.get(key, default) for pv in pvs]` (unguarded:
a non-dict element raises). -/
def pvGetAll (key : String) (default : JVal) : List JVal → Except PyErr (List JVal)
  | [] => .ok []
  | pv :: rest => do
    let v ← pyGet pv key default
    let more ← pvGetAll key default rest
    pure (v :: more)

/-- Python `len(set(xs)) == 1`: raises on an unhashable element, else tests
whether all elements are equal. -/
def lenSetEq1 (xs : List JVal) : Except PyErr Bool :=
  if xs.all pyHashable then
    match xs with
    | [] => .ok false
    | x :: rest => .ok (rest.all (pyEq x))
  else .error .typeError

/-- The `_normalize_ws` call of check 5 on one rationale: `re.sub` raises on
a non-string. -/
def normWsOne (v : JVal) : Except PyErr String :=
  match v with
  | .str s => .ok (_normalize_ws s)
  | _ => .error .typeError

/-- Rationale normalization of check 5. -/
def norm_ws_all : List JVal → Except PyErr (List String)
  | [] => .ok []
  | v :: rest => do
    let s ← normWsOne v
    let more ← norm_ws_all rest
    pure (s :: more)

/-- Pair scan of check 5: are any two elements equal? -/
def anyTwoEq : List String → Bool
  | [] => false
  | x :: rest => rest.contains x || anyTwoEq rest

/-- Check 5, `PARTNER_UNANIMITY` / `PARTNER_CONVERGENCE`. -/
def rule_partner_unanimity (discussion : Artifact) : Except PyErr (List Warning) :=
  match discussion with
  | .val d =>
    if _is_stub d then .ok [] else do
      let pvv ← pyGet d "partner_verdicts" .null
      let partner_verdicts := _as_list pvv
      let mode ← pyGet d "assessment_mode" (.str "sequential")
      if partner_verdicts.length == 3 then do
        let verdicts_list ← pvGetAll "verdict" .null partner_verdicts
        let rationales ← pvGetAll "rationale" (.str "") partner_verdicts
        let one ← lenSetEq1 verdicts_list
        if one then do
          let normalized ← norm_ws_all rationales
          if anyTwoEq normalized then
            .ok [_warn "PARTNER_UNANIMITY"
              ("All 3 partners agree on verdict AND share identical"
                ++ " rationales — flags generation collapse")]
          else
            if pyEq mode (.str "sub-agent") then
              .ok [_warn "PARTNER_CONVERGENCE"
                "All 3 partners independently converged on the same verdict with distinct rationales"]
            else .ok []
        else .ok []
      else .ok []
  | _ => .ok []

/-- Check 6, `ZERO_APPLICABLE`. -/
def rule_zero_applicable (score_dims : Artifact) : Except PyErr (List Warning) :=
  match score_dims with
  | .val sd =>
    if _is_stub sd then .ok [] else do
      let sv ← pyGet sd "summary" .null
      let score_warnings := _as_list ((dGet (_as_dict sv) "warnings").getD .null)
      if score_warnings.any (fun w => pyEq w (.str "ZERO_APPLICABLE_DIMENSIONS")) then
        .ok [_warn "ZERO_APPLICABLE" "All dimensions marked not_applicable — score is 0.0"]
      else .ok []
  | _ => .ok []

/-- Import loop of check 7: a stale import is one more than 7 days older
than `now`; an unparseable date is skipped (`except ValueError: pass`),
while slicing a truthy non-string raises. -/
def staleDate (now : PyNum) (imp : JVal) (s : String) : Except PyErr (List Warning) :=
  match parseDate10 s with
  | some day =>
    if PyNum.qlt 7 (now - PyNum.ofInt day) then do
      let src ← pyGet imp "source_skill" (.str "unknown")
      pure [_warn "STALE_IMPORT"
        ("Imported " ++ pyStr src ++ " artifact from " ++ s ++ " is older than 7 days")]
    else pure []
  | none => pure []

/-- Import-loop body of check 7 on one entry. -/
def staleOne (now : PyNum) (imp : JVal) : Except PyErr (List Warning) := do
  let dv ← pyGet imp "import_date" (.str "")
  if dv.truthy then
    match dv with
    | .str s => staleDate now imp s
    | _ => Except.error PyErr.typeError
  else pure []

/-- Loop of check 7 over the imported entries. -/
def staleLoop (now : PyNum) : List JVal → Except PyErr (List Warning)
  | [] => .ok []
  | imp :: rest => do
    let here ← staleOne now imp
    let more ← staleLoop now rest
    pure (here ++ more)

/-- Check 7, `STALE_IMPORT`. -/
def rule_stale_import (prior : Artifact) (now : PyNum) : Except PyErr (List Warning) :=
  match prior with
  | .val p =>
    if _is_stub p then .ok [] else do
      let iv ← pyGet p "imported" .null
      staleLoop now (_as_list iv)
  | _ => .ok []

/-- Check 8 on one scored dimension. -/
def lowEvidenceOne (item : JVal) : Except PyErr (List Warning) := do
  let st ← pyGet item "status" .null
  if !pyEq st (.str "not_applicable") then do
    let ev ← pyGet item "evidence" .null
    let empty := !ev.truthy
      || (match ev with | .str s => strTrim s == "" | _ => false)
    if empty then do
      let idv ← pyGet item "id" (.str "?")
      pure [_warn "LOW_EVIDENCE"
        ("Dimension '" ++ pyStr idv ++ "' has no evidence field")]
    else pure []
  else pure []

/-- Item loop of check 8. -/
def lowEvidenceLoop : List JVal → Except PyErr (List Warning)
  | [] => .ok []
  | item :: rest => do
    let here ← lowEvidenceOne item
    let more ← lowEvidenceLoop rest
    pure (here ++ more)

/-- Check 8, `LOW_EVIDENCE`. -/
def rule_low_evidence (score_dims : Artifact) : Except PyErr (List Warning) :=
  match score_dims with
  | .val sd =>
    if _is_stub sd then .ok [] else do
      let iv ← pyGet sd "items" .null
      lowEvidenceLoop (_as_list iv)
  | _ => .ok []

/-- Check 9, `FUND_VALIDATION_ERROR`. -/
def rule_fund_validation (fund_profile : Artifact) : Except PyErr (List Warning) :=
  match fund_profile with
  | .val fp =>
    if _is_stub fp then .ok [] else do
      let vv ← pyGet fp "validation" .null
      let validation := _as_dict vv
      if !pyEq ((dGet validation "status").getD .null) (.str "valid") then
        let errors := _as_list ((dGet validation "errors").getD .null)
        .ok [_warn "FUND_VALIDATION_ERROR"
          ("Fund profile validation failed: " ++ joinWith "; " ((errors.take 3).map pyStr))]
      else .ok []
  | _ => .ok []

/-- Check 10, `DEGRADED_ASSESSMENT`. -/
def rule_degraded (discussion : Artifact) (get : String → Artifact) :
    Except PyErr (List Warning) :=
  match discussion with
  | .val d =>
    if _is_stub d then .ok [] else do
      let mode ← pyGet d "assessment_mode" .null
      if pyEq mode (.str "sub-agent") then
        pure (List.flatten (PARTNER_ASSESSMENT_FILES.map (fun pa =>
          match get pa with
          | .missing => [_warn "DEGRADED_ASSESSMENT"
              ("Sub-agent mode but " ++ pa
                ++ " is missing — indicates sub-agent failure with silent fallback")]
          | _ => [])))
      else pure []
  | _ => .ok []

/-- Per-file body of check 10b. -/
def shallowFor (pa : String) (pa_data : JVal) : Except PyErr (List Warning) := do
  let cpv ← pyGet pa_data "conviction_points" .null
  let issues1 := if (_as_list cpv).length < 2 then ["conviction_points < 2"] else []
  let kcv ← pyGet pa_data "key_concerns" .null
  let issues2 := if (_as_list kcv).length < 2 then ["key_concerns < 2"] else []
  let rv ← pyGet pa_data "rationale" (.str "")
  let rationale := match rv with | .str s => s | _ => ""
  let issues3 := if rationale.length < 100 then ["rationale < 100 chars"] else []
  let issues := issues1 ++ issues2 ++ issues3
  if !issues.isEmpty then
    pure [_warn "SHALLOW_ASSESSMENT" (pa ++ ": " ++ joinWith ", " issues)]
  else pure []

/-- Check 10b on one partner-assessment slot (skips non-usable files). -/
def shallowHere (get : String → Artifact) (pa : String) : Except PyErr (List Warning) :=
  match get pa with
  | .val pd => if _is_stub pd then pure [] else shallowFor pa pd
  | _ => pure []

/-- File loop of check 10b. -/
def shallowLoop (get : String → Artifact) : List String → Except PyErr (List Warning)
  | [] => .ok []
  | pa :: rest => do
    let here ← shallowHere get pa
    let more ← shallowLoop get rest
    pure (here ++ more)

/-- Check 10b, `SHALLOW_ASSESSMENT` (sub-agent mode, present files only). -/
def rule_shallow (discussion : Artifact) (get : String → Artifact) :
    Except PyErr (List Warning) :=
  match discussion with
  | .val d =>
    if _is_stub d then .ok [] else do
      let mode ← pyGet d "assessment_mode" .null
      if pyEq mode (.str "sub-agent") then shallowLoop get PARTNER_ASSESSMENT_FILES
      else pure []
  | _ => .ok []

/-- Check 10c, `HIGH_NA_COUNT` (isinstance-guarded count). -/
def rule_high_na (score_dims : Artifact) : Except PyErr (List Warning) :=
  match score_dims with
  | .val sd =>
    if _is_stub sd then .ok [] else do
      let iv ← pyGet sd "items" .null
      let na_count := ((_as_list iv).filter (fun item =>
        match item with
        | .obj fs => pyEq ((dGet fs "status").getD .null) (.str "not_applicable")
        | _ => false)).length
      if na_count > 6 then
        .ok [_warn "HIGH_NA_COUNT"
          (toString na_count ++ " of 28 dimensions marked not_applicable — conviction score may be inflated")]
      else .ok []
  | _ => .ok []

/-- Lexicographic code-point order on character lists (Python string
order), implemented so it computes inside the kernel. -/
def charListLe : List Char → List Char → Bool
  | [], _ => true
  | _ :: _, [] => false
  | a :: as, b :: bs =>
    if a.toNat < b.toNat then true
    else if b.toNat < a.toNat then false
    else charListLe as bs

/-- Python `a <= b` on strings. -/
def strLe (a b : String) : Bool := charListLe a.data b.data

/-- Sorted insertion (kernel-computable insertion sort). -/
def insertSorted (x : String) : List String → List String
  | [] => [x]
  | y :: rest => if strLe x y then x :: y :: rest else y :: insertSorted x rest

/-- Lexicographic sort used for Python `sorted` over string sets. -/
def sortStrings (l : List String) : List String :=
  l.foldr insertSorted []

/-- Python `repr` of a list of strings (`['a', 'b']`). -/
def pyStrListRepr (l : List String) : String :=
  "[" ++ joinWith ", " (l.map (fun s => "'" ++ s ++ "'")) ++ "]"

/-- Check 11 on one artifact slot. -/
def schemaOne (get : String → Artifact) (name : String) (expected : List String) :
    Except PyErr (List Warning) :=
  match get name with
  | .val a =>
    if _is_stub a then pure [] else do
      let keys ← pyKeys a
      let actual := keys.eraseDups
      let extra := actual.filter (fun k => !expected.contains k)
      let w1 :=
        if !extra.isEmpty then
          [_warn "SCHEMA_DRIFT"
            (name ++ " has unexpected top-level keys: " ++ pyStrListRepr (sortStrings extra))]
        else []
      let required := (lookupKeys REQUIRED_KEYS name).getD []
      let missing := required.filter (fun k => !actual.contains k)
      let w2 :=
        if !missing.isEmpty then
          [_warn "SCHEMA_DRIFT"
            (name ++ " missing required top-level keys: " ++ pyStrListRepr (sortStrings missing))]
        else []
      pure (w1 ++ w2)
  | _ => pure []

/-- Artifact loop of check 11, over `EXPECTED_KEYS` in table order. -/
def schemaLoop (get : String → Artifact) : List (String × List String) → Except PyErr (List Warning)
  | [] => .ok []
  | (name, expected) :: rest => do
    let here ← schemaOne get name expected
    let more ← schemaLoop get rest
    pure (here ++ more)

/-- Check 12, `STAGE_OUT_OF_SCOPE`. -/
def rule_stage_scope (startup : Artifact) : Except PyErr (List Warning) :=
  match startup with
  | .val sp =>
    if _is_stub sp then .ok [] else do
      let sv ← pyGet sp "stage" .null
      let stage ← normStage sv
      if stage != "" && !KNOWN_STAGES.contains stage then
        .ok [_warn "STAGE_OUT_OF_SCOPE"
          ("Stage '" ++ stage ++ "' is outside calibrated range "
            ++ "(pre_seed, seed, series_a). Results may be less precise.")]
      else .ok []
  | _ => .ok []

/-- Check 13, `SEQUENTIAL_FALLBACK`. -/
def rule_sequential_fallback (discussion : Artifact) : Except PyErr (List Warning) :=
  match discussion with
  | .val d =>
    if _is_stub d then .ok [] else do
      let mode ← pyGet d "assessment_mode" .null
      if pyEq mode (.str "sequential") then do
        let intent ← pyGet d "assessment_mode_intentional" .null
        if !intent.truthy then
          .ok [_warn "SEQUENTIAL_FALLBACK"
            "Assessments generated sequentially (no sub-agents) — not an error, just transparency"]
        else .ok []
      else .ok []
  | _ => .ok []

/-- The ic-sim `validate_artifacts`: the presence loop and checks 2-13 in
source order. `now` is the value of `datetime.now()` in days since the
epoch, the one ambient input the staleness check reads. -/
def validate_artifacts (arts : Arts) (now : PyNum) : Except PyErr (List Warning) := do
  let w1 := requiredPresence WARNING_SEVERITY REQUIRED_ARTIFACTS arts.get
  let w2 ← rule_blocking_conflict arts.conflict_check
  let w3 ← rule_orphaned arts.conflict_check arts.fund_profile
  let w4 ← rule_verdict_score arts.score_dimensions
  let w4b ← rule_consensus_score arts.discussion arts.score_dimensions
  let w4c ← rule_unanimous_mismatch arts.discussion
  let w5 ← rule_partner_unanimity arts.discussion
  let w6 ← rule_zero_applicable arts.score_dimensions
  let w7 ← rule_stale_import arts.prior_artifacts now
  let w8 ← rule_low_evidence arts.score_dimensions
  let w9 ← rule_fund_validation arts.fund_profile
  let w10 ← rule_degraded arts.discussion arts.get
  let w10b ← rule_shallow arts.discussion arts.get
  let w10c ← rule_high_na arts.score_dimensions
  let w11 ← schemaLoop arts.get EXPECTED_KEYS
  let w12 ← rule_stage_scope arts.startup_profile
  let w13 ← rule_sequential_fallback arts.discussion
  return w1 ++ w2 ++ w3 ++ w4 ++ w4b ++ w4c ++ w5 ++ w6 ++ w7 ++ w8 ++ w9
    ++ w10 ++ w10b ++ w10c ++ w11 ++ w12 ++ w13

end IcSim

/-! ## Acceptance resolution

The `accepted_warnings` block of each `compose` (deck-review lines 546-573,
market-sizing 947-974, ic-sim 936-963): validate directives from the owning
artifact into an `acceptances` list, then downgrade matching warnings in
place, first matching directive only. -/

/-- A validated acceptance directive, as the `acceptances.append` dict
`{code, reason, match}` stores it. Validation guarantees `code` is a string
key of the severity table and `reason` a non-blank string; `match` passed
only a truthiness test and keeps its JSON type. -/
structure AccDirective where
  code : String
  reason : String
  match_str : JVal
  deriving Repr

/-- Directive-validation loop shared verbatim by the deck-review and
market-sizing `compose` (unguarded `aw.get`, so a non-dict entry raises):
skip entries without truthy `code`/`match` or without a non-blank string
`reason`; keep a directive only when its code's base severity is in
`ACCEPTIBLE_SEVERITIES = {"medium"}`; codes of other (higher) severities are
logged to stderr and ignored. -/
def parseAccLoop (table : List (String × String)) : List JVal → Except PyErr (List AccDirective)
  | [] => .ok []
  | aw :: rest => do
    let codev ← pyGet aw "code" (.str "")
    let match_str ← pyGet aw "match" (.str "")
    if !codev.truthy || !match_str.truthy then
      parseAccLoop table rest
    else do
      let reasonv ← pyGet aw "reason" (.str "")
      match reasonv with
      | .str rs =>
        if strTrim rs == "" then parseAccLoop table rest
        else
          match codev with
          | .str cs =>
            (match lookupStr table cs with
             | some sv =>
               if sv == "medium" then do
                 let more ← parseAccLoop table rest
                 pure ({ code := cs, reason := rs, match_str := match_str } :: more)
               else parseAccLoop table rest
             | none => parseAccLoop table rest)
          | _ => parseAccLoop table rest
      | _ => parseAccLoop table rest

/-- The ic-sim variant of the loop: its `aw.get(...)` calls are
`isinstance(aw, dict)`-guarded, so it never raises. -/
def parseAccLoopGuarded (table : List (String × String)) : List JVal → List AccDirective
  | [] => []
  | aw :: rest =>
    let codev := objGetD aw "code" (.str "")
    let match_str := objGetD aw "match" (.str "")
    if !codev.truthy || !match_str.truthy then
      parseAccLoopGuarded table rest
    else
      let reasonv := objGetD aw "reason" (.str "")
      match reasonv with
      | .str rs =>
        if strTrim rs == "" then parseAccLoopGuarded table rest
        else
          match codev with
          | .str cs =>
            (match lookupStr table cs with
             | some sv =>
               if sv == "medium" then
                 { code := cs, reason := rs, match_str := match_str } :: parseAccLoopGuarded table rest
               else parseAccLoopGuarded table rest
             | none => parseAccLoopGuarded table rest)
          | _ => parseAccLoopGuarded table rest
      | _ => parseAccLoopGuarded table rest

/-- One directive test against one warning:
`w["code"] == acc["code"] and acc["match"].lower() in w.get("message", "").lower()`
(the `and` short-circuits, so `.lower()` on a non-string `match` raises only
when the codes agree). -/
def accCheck (w : Warning) (acc : AccDirective) : Except PyErr Bool :=
  if acc.code == w.code then do
    let m ← pyLowerStr acc.match_str
    pure (strSub m (strLower w.message))
  else pure false

/-- Inner directive loop with `break`: the first matching directive
acknowledges the warning and appends the acceptance suffix. -/
def resolveOne (accs : List AccDirective) (w : Warning) : Except PyErr Warning :=
  match accs with
  | [] => .ok w
  | acc :: rest => do
    let b ← accCheck w acc
    if b then
      .ok { w with severity := "acknowledged",
                   message := w.message ++ " [Accepted: " ++ acc.reason ++ "]" }
    else resolveOne rest w

/-- Outer warning loop of the resolution step. -/
def applyAcceptances (accs : List AccDirective) : List Warning → Except PyErr (List Warning)
  | [] => .ok []
  | w :: rest => do
    let w' ← resolveOne accs w
    let rest' ← applyAcceptances accs rest
    pure (w' :: rest')

/-- Pure directive test for stating first-match behaviour: agrees with
`accCheck` whenever the latter does not raise. -/
def accMatchesB (w : Warning) (acc : AccDirective) : Bool :=
  acc.code == w.code &&
    (match acc.match_str with
     | .str m => strSub (strLower m) (strLower w.message)
     | _ => false)

namespace DeckReview

/-- Directive extraction of the deck-review `compose`: directives live in
`stage_profile.json`'s `accepted_warnings` field, and the whole block is
skipped when that artifact is not usable. -/
def parse_accepted_warnings (profile : Artifact) : Except PyErr (List AccDirective) :=
  match profile with
  | .val p =>
    if _is_stub p then .ok [] else do
      let awv ← pyGet p "accepted_warnings" .null
      parseAccLoop WARNING_SEVERITY (_as_list awv)
  | _ => .ok []

end DeckReview

namespace IcSim

/-- Directive extraction of the ic-sim `compose`: directives live in
`fund_profile.json`'s `accepted_warnings` field (entry reads are
isinstance-guarded). -/
def parse_accepted_warnings (fund : Artifact) : Except PyErr (List AccDirective) :=
  match fund with
  | .val fp =>
    if _is_stub fp then .ok [] else do
      let awv ← pyGet fp "accepted_warnings" .null
      pure (parseAccLoopGuarded WARNING_SEVERITY (_as_list awv))
  | _ => .ok []

end IcSim

/-! ## Numbers: `float(...)` and `round(x, 1)` -/

/-- Digits to a natural number. -/
def digitsToNat (cs : List Char) : Nat :=
  cs.foldl (fun acc c => 10 * acc + (c.toNat - 48)) 0

/-- Exponent tail of a float literal. -/
def parseExpTail (mantissa : PyNum) (cs : List Char) : Option PyNum :=
  let (esign, cs) :=
    match cs with
    | '+' :: r => ((1 : Int), r)
    | '-' :: r => ((-1 : Int), r)
    | _ => ((1 : Int), cs)
  let (ed, rest) := cs.span Char.isDigit
  if ed.isEmpty || !rest.isEmpty then none
  else
    let k := digitsToNat ed
    some (if esign == 1 then mantissa * ⟨intPow 10 k, 1⟩ else mantissa / ⟨intPow 10 k, 1⟩)

/-- Python `float(s)` on a string: optional sign, decimal mantissa, optional
exponent, surrounding whitespace stripped. (Python also accepts underscores
and `inf`/`nan`; no embedded call site feeds those.) -/
def parseFloat (s : String) : Option PyNum :=
  let cs := (strTrim s).data
  let (sign, cs) :=
    match cs with
    | '+' :: r => ((1 : PyNum), r)
    | '-' :: r => ((-1 : PyNum), r)
    | _ => ((1 : PyNum), cs)
  let (ip, rest) := cs.span Char.isDigit
  match rest with
  | [] => if ip.isEmpty then none else some (sign * ⟨(digitsToNat ip : Int), 1⟩)
  | '.' :: r2 =>
    let (fp, rest2) := r2.span Char.isDigit
    if ip.isEmpty && fp.isEmpty then none
    else
      let base : PyNum := ⟨(digitsToNat ip : Int), 1⟩ + ⟨(digitsToNat fp : Int), intPow 10 fp.length⟩
      (match rest2 with
       | [] => some (sign * base)
       | e :: r3 =>
         if e == 'e' || e == 'E' then (parseExpTail base r3).map (sign * ·) else none)
  | e :: r2 =>
    if (e == 'e' || e == 'E') && !ip.isEmpty then
      (parseExpTail ⟨(digitsToNat ip : Int), 1⟩ r2).map (sign * ·)
    else none

/-- Python `float(v)`: numbers and booleans convert, strings parse or raise
`ValueError`, everything else raises `TypeError`. -/
def pyFloat (v : JVal) : Except PyErr PyNum :=
  match v with
  | .num q => .ok q
  | .bool b => .ok (if b then 1 else 0)
  | .str s =>
    (match parseFloat s with
     | some q => .ok q
     | none => .error .valueError)
  | _ => .error .typeError

/-- The `try: float(v) except (TypeError, ValueError): ...` pattern. -/
def pyFloatTry (v : JVal) : Option PyNum :=
  match pyFloat v with
  | .ok q => some q
  | .error _ => none

/-- Round half to even to an integer (Python `round`); floats are modelled
as exact rationals, so the tie rule applies to the exact value. `den` is
positive, so `Int.fdiv` is the floor and `r / den` the fractional part. -/
def roundHalfEven (q : PyNum) : Int :=
  let f := Int.fdiv q.num q.den
  let r := q.num - f * q.den
  if 2 * r < q.den then f
  else if q.den < 2 * r then f + 1
  else if f % 2 = 0 then f else f + 1

/-- Python `round(q, 1)`. -/
def roundTo1 (q : PyNum) : PyNum := ⟨roundHalfEven (q * 10), 10⟩

/-! ## Market-sizing variant (`skills/market-sizing/scripts/compose_report.py`):
the provenance classifier -/

namespace MarketSizing

/-- The market-sizing `QUANTITATIVE_PARAMS` set. -/
def QUANTITATIVE_PARAMS : List String :=
  ["customer_count", "arpu", "serviceable_pct", "target_pct", "industry_total",
   "segment_pct", "share_pct"]

/-- The market-sizing `_compute_delta`: signed percentage delta rounded to
one decimal, or `None` when the claim does not convert with `float` or is
not positive. -/
def _compute_delta (calculated : PyNum) (deck_claim : JVal) : Option PyNum :=
  match pyFloatTry deck_claim with
  | none => none
  | some claim =>
    if PyNum.qle claim 0 then none
    else some (roundTo1 ((calculated - claim) / claim * 100))

/-- One figure's provenance record, as `_compute_provenance` stores it
(`confidence_breakdown` flattened into the three counters). -/
structure ProvEntry where
  classification : String
  breakdown_sourced : Nat
  breakdown_derived : Nat
  breakdown_agent_estimate : Nat
  deck_claim : Option JVal
  delta_vs_deck_pct : Option PyNum
  input_provenances : List (String × JVal)
  deriving Repr

/-- Python dict assignment `assumption_map[name] = cat` (existing key keeps
its slot, value updated). -/
def amSet : List (JVal × JVal) → JVal → JVal → List (JVal × JVal)
  | [], k, v => [(k, v)]
  | (k0, v0) :: rest, k, v =>
    if pyEq k0 k then (k0, v) :: rest else (k0, v0) :: amSet rest k v

/-- Dict assignment with the hashability check a Python dict performs. -/
def amSetE (m : List (JVal × JVal)) (k v : JVal) : Except PyErr (List (JVal × JVal)) :=
  if pyHashable k then .ok (amSet m k v) else .error .typeError

/-- Dict lookup `assumption_map[name]` / membership, by Python equality. -/
def amGet (m : List (JVal × JVal)) (k : JVal) : Option JVal :=
  (m.find? (fun p => pyEq p.1 k)).map (·.2)

/-- The assumption-map loop of `_compute_provenance`: name → category for
every dict entry with truthy `name` and `category`. -/
def assumptionLoop (acc : List (JVal × JVal)) : List JVal → Except PyErr (List (JVal × JVal))
  | [] => .ok acc
  | a :: rest =>
    match a with
    | .obj fs =>
      let name := (dGet fs "name").getD (.str "")
      let cat := (dGet fs "category").getD (.str "")
      if name.truthy && cat.truthy then do
        let acc' ← amSetE acc name cat
        assumptionLoop acc' rest
      else assumptionLoop acc rest
    | _ => assumptionLoop acc rest

/-- Figure classification from the resolved categories (`set(...)` raising
on an unhashable category): `agent_estimate` dominates, else `sourced` iff
the set is exactly `{"sourced"}`, else `derived`. Called only with a
non-empty list (the zero-resolved case returned `unknown` before). -/
def classifyCats (cats : List JVal) : Except PyErr String :=
  if cats.all pyHashable then
    .ok (if cats.any (fun c => pyEq c (.str "agent_estimate")) then "agent_estimate"
         else if !cats.isEmpty && cats.all (fun c => pyEq c (.str "sourced")) then "sourced"
         else "derived")
  else .error .typeError

/-- Python `metric.upper()` for the three metric keys. -/
def metricUpper (m : String) : String := strUpper m

/-- Classification step of `_compute_provenance`: `unknown` when nothing
resolved, else the set-based classification of the resolved categories. -/
def classifyResolved (resolved : List (String × JVal)) : Except PyErr String :=
  if resolved.isEmpty then pure "unknown" else classifyCats (resolved.map (·.2))

/-- Delta step of `_compute_provenance`:
`_compute_delta(float(value), deck_claim) if deck_claim is not None else None`. -/
def deltaFor (deck_claim : Option JVal) (value : JVal) : Except PyErr (Option PyNum) :=
  match deck_claim with
  | some dc => do
    let calcv ← pyFloat value
    pure (_compute_delta calcv dc)
  | none => pure none

/-- Per-figure body of `_compute_provenance`: resolve the quantitative
inputs against the assumption map, classify, count the breakdown, and
compute the deck-claim delta. Returns the figure's record and its
unresolved `(param, METRIC)` pairs in iteration order. -/
def provMetric (am : List (JVal × JVal)) (claims : List (String × JVal))
    (approach_data : JVal) (metric : String) :
    Except PyErr (ProvEntry × List (String × String)) := do
  let mv ← pyGet approach_data metric .null
  let m := _as_dict mv
  let figure_inputs := _as_dict ((dGet m "inputs").getD .null)
  let relevant := figure_inputs.filter (fun p => QUANTITATIVE_PARAMS.contains p.1)
  let resolved := relevant.filterMap (fun p => (amGet am (.str p.1)).map (fun c => (p.1, c)))
  let unresolved := (relevant.filter (fun p => (amGet am (.str p.1)).isNone)).map
    (fun p => (p.1, metricUpper metric))
  let classification ← classifyResolved resolved
  let bs := (resolved.filter (fun p => pyEq p.2 (.str "sourced"))).length
  let bd := (resolved.filter (fun p => pyEq p.2 (.str "derived"))).length
  let ba := (resolved.filter (fun p => pyEq p.2 (.str "agent_estimate"))).length
  let deck_claim := dGet claims metric
  let value := (dGet m "value").getD (.num 0)
  let delta ← deltaFor deck_claim value
  pure ({ classification := classification, breakdown_sourced := bs, breakdown_derived := bd,
          breakdown_agent_estimate := ba, deck_claim := deck_claim,
          delta_vs_deck_pct := delta, input_provenances := resolved }, unresolved)

/-- Per-approach body: `sizing.get(approach_key)` of `None` skips the
approach, otherwise tam/sam/som are processed in order. -/
def provApproach (am : List (JVal × JVal)) (claims : List (String × JVal))
    (sizing : JVal) (approach_key : String) :
    Except PyErr (Option (List (String × ProvEntry) × List (String × String))) := do
  let ad ← pyGet sizing approach_key .null
  match ad with
  | .null => pure none
  | _ => do
    let (e1, u1) ← provMetric am claims ad "tam"
    let (e2, u2) ← provMetric am claims ad "sam"
    let (e3, u3) ← provMetric am claims ad "som"
    pure (some ([("tam", e1), ("sam", e2), ("som", e3)], u1 ++ u2 ++ u3))

/-- Assumption-map build of `_compute_provenance` (a stub or absent
validation artifact yields an empty map). -/
def assumptionMapOf (validation : Option JVal) : Except PyErr (List (JVal × JVal)) :=
  match validation with
  | some v =>
    if _is_stub v then pure [] else do
      let av ← pyGet v "assumptions" .null
      assumptionLoop [] (_as_list av)
  | none => pure []

/-- Deck-claims dict of `_compute_provenance`. -/
def existingClaimsOf (inputs : Option JVal) : Except PyErr (List (String × JVal)) :=
  match inputs with
  | some inp =>
    if _is_stub inp then pure [] else do
      let ecv ← pyGet inp "existing_claims" .null
      pure (_as_dict ecv)
  | none => pure []

/-- The market-sizing `_compute_provenance`: assumption map from
`validation`, deck claims from `inputs`, then both approaches. -/
def _compute_provenance (sizing : JVal) (validation : Option JVal) (inputs : Option JVal) :
    Except PyErr (List (String × List (String × ProvEntry)) × List (String × String)) := do
  let am ← assumptionMapOf validation
  let claims ← existingClaimsOf inputs
  let td ← provApproach am claims sizing "top_down"
  let bu ← provApproach am claims sizing "bottom_up"
  let provenance :=
    (match td with | some (es, _) => [("top_down", es)] | none => [])
      ++ (match bu with | some (es, _) => [("bottom_up", es)] | none => [])
  let unresolved :=
    (match td with | some (_, u) => u | none => [])
      ++ (match bu with | some (_, u) => u | none => [])
  pure (provenance, unresolved)

/-- Lookup of one figure's record in a provenance result. -/
def provGet (prov : List (String × List (String × ProvEntry))) (ak mk : String) :
    Option ProvEntry := do
  let es ← (prov.find? (fun p => p.1 == ak)).map (·.2)
  (es.find? (fun p => p.1 == mk)).map (·.2)

/-- The figure value `_compute_provenance` feeds to `float(...)`:
`_as_dict(approach_data.get(metric)).get("value", 0)`. -/
def figureValue (sizing : JVal) (ak mk : String) : Except PyErr JVal := do
  let ad ← pyGet sizing ak .null
  let mv ← pyGet ad mk .null
  pure ((dGet (_as_dict mv) "value").getD (.num 0))

end MarketSizing

/-! ## Strict-mode exit (each variant's `main`)

After `compose` returns, `main` serialises the result, writes it (stdout or
the `-o` file), and only then, under `--strict`, exits 1 if any warning's
severity is `high` or `medium`. The tail of `main` is modelled as the list
of its externally visible events in program order. -/

/-- The composed output object: `{report_markdown, validation}`. -/
structure ValidationResult where
  status : String
  warnings : List Warning
  artifacts_found : List String
  artifacts_missing : List String
  deriving Repr, DecidableEq

/-- Result value each `compose` returns. -/
structure ComposeResult where
  report_markdown : String
  validation : ValidationResult
  deriving Repr, DecidableEq

/-- An externally visible action of `main` after `compose` returned. -/
inductive MainEvent where
  | writeOutput (result : ComposeResult) : MainEvent
  | exitWith (code : Nat) : MainEvent
  deriving Repr, DecidableEq

/-- The strict-mode blocking test `w["severity"] in ("high", "medium")`. -/
def isBlocking (w : Warning) : Bool :=
  w.severity == "high" || w.severity == "medium"

/-- Tail of `main` (identical in all three scripts): write the full output,
then under `--strict` exit 1 iff any blocking warning remains. -/
def mainEvents (result : ComposeResult) (strict : Bool) : List MainEvent :=
  [MainEvent.writeOutput result] ++
    (if strict && !(result.validation.warnings.filter isBlocking).isEmpty then
      [MainEvent.exitWith 1]
    else [])

/-- The process exit code a trace produces: the last explicit `sys.exit`,
else the normal exit 0. -/
def processExitCode (events : List MainEvent) : Nat :=
  (events.filterMap (fun e =>
    match e with
    | .exitWith n => some n
    | _ => none)).getLastD 0

/-! ## Concrete inputs used by the theorems below -/

deriving instance DecidableEq for Except

/-- Fuzzed deck-review artifact map: the nested field `claimed_stage` of the
Present `deck_inventory.json` replaced by a number. -/
def deckFuzzArts : DeckReview.Arts :=
  { deck_inventory := .val (.obj [("claimed_stage", .num 5)]),
    stage_profile := .val (.obj [("detected_stage", .str "seed")]),
    slide_reviews := .missing, checklist := .missing }

/-- IC-sim directory whose `prior_artifacts.json` records an import dated
2026-01-02; all other artifacts absent. -/
def icTimeArts : IcSim.Arts :=
  { startup_profile := .missing, fund_profile := .missing, conflict_check := .missing,
    discussion := .missing, score_dimensions := .missing,
    prior_artifacts := .val (.obj [("imported", .arr
      [.obj [("import_date", .str "2026-01-02"), ("source_skill", .str "deck-review")]])]),
    partner_assessment_visionary := .missing, partner_assessment_operator := .missing,
    partner_assessment_analyst := .missing }

/-- IC-sim directory with every artifact absent. -/
def icEmptyArts : IcSim.Arts :=
  { startup_profile := .missing, fund_profile := .missing, conflict_check := .missing,
    discussion := .missing, score_dimensions := .missing, prior_artifacts := .missing,
    partner_assessment_visionary := .missing, partner_assessment_operator := .missing,
    partner_assessment_analyst := .missing }

/-- A JSON document whose `skipped` marker is the truthy number 1 (not the
literal `true`). -/
def skippedOneDoc : JVal := .obj [("skipped", .num 1)]

/-- Deck-review directory whose checklist file holds invalid JSON and whose
other artifacts are absent. -/
def c7Arts : DeckReview.Arts :=
  { deck_inventory := .missing, stage_profile := .missing,
    slide_reviews := .missing, checklist := .corrupt }

/-- The findings `validate_artifacts` produces on `c7Arts`. -/
def c7Ws : List Warning :=
  [ ⟨"MISSING_ARTIFACT", "Required artifact missing: deck_inventory.json", "high"⟩,
    ⟨"MISSING_ARTIFACT", "Required artifact missing: stage_profile.json", "high"⟩,
    ⟨"MISSING_ARTIFACT", "Required artifact missing: slide_reviews.json", "high"⟩,
    ⟨"CORRUPT_ARTIFACT", "Artifact has invalid JSON: checklist.json", "high"⟩ ]

/-- Stage profile carrying one acceptance directive crafted to target the
high-severity `CORRUPT_ARTIFACT` code. -/
def c4Profile : Artifact := .val (.obj [("accepted_warnings", .arr
  [.obj [("code", .str "CORRUPT_ARTIFACT"), ("match", .str "invalid"),
         ("reason", .str "crafted to target a high code")]])])

/-- A high-severity finding the crafted directive of `c4Profile` aims at. -/
def c4HighW : Warning := DeckReview._warn "CORRUPT_ARTIFACT" "Artifact has invalid JSON: checklist.json"

/-- Stage profile with two valid directives matching the same finding. -/
def c5Profile : Artifact := .val (.obj [("accepted_warnings", .arr
  [ .obj [("code", .str "SLIDE_COUNT_EXTREME"), ("match", .str "slides"),
          ("reason", .str "pitch deck is a teaser")],
    .obj [("code", .str "SLIDE_COUNT_EXTREME"), ("match", .str "slides"),
          ("reason", .str "second directive")]])])

/-- The validated directives of `c5Profile`. -/
def c5Accs : List AccDirective :=
  [ ⟨"SLIDE_COUNT_EXTREME", "pitch deck is a teaser", .str "slides"⟩,
    ⟨"SLIDE_COUNT_EXTREME", "second directive", .str "slides"⟩ ]

/-- A medium finding both directives of `c5Profile` match. -/
def c5W : Warning := DeckReview._warn "SLIDE_COUNT_EXTREME"
  "Deck has only 3 slides (<5 — too few for a complete pitch)"

/-- Resolution of `[c5W]` under `c5Accs`: the first directive's reason only. -/
def c5Resolved : List Warning :=
  [⟨"SLIDE_COUNT_EXTREME",
    "Deck has only 3 slides (<5 — too few for a complete pitch) [Accepted: pitch deck is a teaser]",
    "acknowledged"⟩]

/-- Stage profile with one valid acceptance directive. -/
def c6Profile : Artifact := .val (.obj [("accepted_warnings", .arr
  [.obj [("code", .str "STAGE_MISMATCH"), ("match", .str "claims"),
         ("reason", .str "intentional")]])])

/-- The validated directives of `c6Profile`. -/
def c6AccsList : List AccDirective := [⟨"STAGE_MISMATCH", "intentional", .str "claims"⟩]

/-- A medium finding the directive of `c6Profile` matches. -/
def c6Warning : Warning := DeckReview._warn "STAGE_MISMATCH"
  "Deck claims 'seed' but analysis detected 'series_a'"

/-- One application of the resolver to `[c6Warning]`. -/
def c6Resolved1 : List Warning :=
  [⟨"STAGE_MISMATCH",
    "Deck claims 'seed' but analysis detected 'series_a' [Accepted: intentional]",
    "acknowledged"⟩]

/-- Two applications of the resolver to `[c6Warning]`: the suffix repeats. -/
def c6Resolved2 : List Warning :=
  [⟨"STAGE_MISMATCH",
    "Deck claims 'seed' but analysis detected 'series_a' [Accepted: intentional] [Accepted: intentional]",
    "acknowledged"⟩]

/-- Market-sizing `sizing.json` with one top-down TAM figure: the single
quantitative input `arpu` and value 1. -/
def c8Sizing : JVal := .obj [("top_down", .obj
  [("tam", .obj [("inputs", .obj [("arpu", .num (PyNum.ofInt 5))]),
                 ("value", .num (PyNum.ofInt 1))])])]

/-- Validation artifact resolving `arpu` to category `sourced`. -/
def c8Validation : JVal := .obj [("assumptions", .arr
  [.obj [("name", .str "arpu"), ("category", .str "sourced")]])]

/-- Inputs artifact with a pre-existing deck claim of 3 for TAM. -/
def c8Inputs : JVal := .obj [("existing_claims", .obj [("tam", .num (PyNum.ofInt 3))])]

/-- The TAM record `_compute_provenance` produces on the directory above:
the stored delta is −66.7, the exact −200/3 rounded to one decimal. -/
def c8e : MarketSizing.ProvEntry :=
  { classification := "sourced", breakdown_sourced := 1, breakdown_derived := 0,
    breakdown_agent_estimate := 0, deck_claim := some (.num (PyNum.ofInt 3)),
    delta_vs_deck_pct := some (PyNum.mk (-667) 10),
    input_provenances := [("arpu", .str "sourced")] }

/-- The record of a figure with no quantitative inputs and no deck claim. -/
def c8eU : MarketSizing.ProvEntry :=
  { classification := "unknown", breakdown_sourced := 0, breakdown_derived := 0,
    breakdown_agent_estimate := 0, deck_claim := none, delta_vs_deck_pct := none,
    input_provenances := [] }

/-- The full provenance map on the `c8Sizing` directory. -/
def c8Prov : List (String × List (String × MarketSizing.ProvEntry)) :=
  [("top_down", [("tam", c8e), ("sam", c8eU), ("som", c8eU)])]

/-- IC-sim discussion with three agreeing verdicts whose rationales are NOT
all identical after whitespace normalization — but two of them are. -/
def c10Disc : JVal := .obj [("partner_verdicts", .arr
  [ .obj [("verdict", .str "invest"), ("rationale", .str "Great team")],
    .obj [("verdict", .str "invest"), ("rationale", .str "Great  team")],
    .obj [("verdict", .str "invest"), ("rationale", .str "Too risky")]])]

/-- IC-sim directory holding only `c10Disc`. -/
def c10Arts : IcSim.Arts :=
  { startup_profile := .missing, fund_profile := .missing, conflict_check := .missing,
    discussion := .val c10Disc, score_dimensions := .missing, prior_artifacts := .missing,
    partner_assessment_visionary := .missing, partner_assessment_operator := .missing,
    partner_assessment_analyst := .missing }

/-- The findings the ic-sim `validate_artifacts` produces on `c10Arts`. -/
def c10Ws : List Warning :=
  [ ⟨"MISSING_ARTIFACT", "Required artifact missing: startup_profile.json", "high"⟩,
    ⟨"MISSING_ARTIFACT", "Required artifact missing: fund_profile.json", "high"⟩,
    ⟨"MISSING_ARTIFACT", "Required artifact missing: conflict_check.json", "high"⟩,
    ⟨"MISSING_ARTIFACT", "Required artifact missing: score_dimensions.json", "high"⟩,
    ⟨"PARTNER_UNANIMITY",
      "All 3 partners agree on verdict AND share identical rationales — flags generation collapse",
      "medium"⟩,
    ⟨"SCHEMA_DRIFT",
      "discussion.json missing required top-level keys: ['assessment_mode', 'consensus_verdict']",
      "low"⟩ ]

/-! ## Theorems

Shared inversion helpers first, then one theorem (with its witness or
counterexample where required) per claim of the specification review. -/

theorem exceptBind_ok {ε α β : Type} {x : Except ε α} {f : α → Except ε β} {b : β}
    (h : (x >>= f) = .ok b) : ∃ a, x = .ok a ∧ f a = .ok b := by
  cases x with
  | error e => exact Except.noConfusion h
  | ok a => exact ⟨a, rfl, h⟩

theorem exceptPure_ok {ε α : Type} {a b : α}
    (h : (pure a : Except ε α) = .ok b) : a = b := by
  cases h
  rfl

/-- Nonempty blocking filter names a high or medium warning, and back. -/
theorem blocking_filter_iff (ws : List Warning) :
    ((ws.filter isBlocking).isEmpty = false ↔
      ∃ w ∈ ws, w.severity = "high" ∨ w.severity = "medium") := by
  rw [List.isEmpty_eq_false_iff_exists_mem]
  constructor
  · rintro ⟨w, hw⟩
    rw [List.mem_filter] at hw
    refine ⟨w, hw.1, ?_⟩
    have hb := hw.2
    unfold isBlocking at hb
    rcases Bool.or_eq_true_iff.mp hb with h | h
    · exact Or.inl (beq_iff_eq.mp h)
    · exact Or.inr (beq_iff_eq.mp h)
  · rintro ⟨w, hw, hsev⟩
    refine ⟨w, List.mem_filter.mpr ⟨hw, ?_⟩⟩
    unfold isBlocking
    rcases hsev with h | h <;> simp [h]

/-- C1. The specification asserts that `validate_artifacts` never raises,
whatever the artifact field types. The deck-review `validate_artifacts`
raises `AttributeError` on `deckFuzzArts`, where the Present deck
inventory's `claimed_stage` field holds the number 5: the `STAGE_MISMATCH`
check evaluates `(inventory.get("claimed_stage") or "").lower()` and an
`int` has no `.lower`. -/
theorem deck_validate_raises_on_numeric_stage :
    DeckReview.validate_artifacts deckFuzzArts = .error .attrError := rfl

/-- C2 counterexample. The ic-sim validation output is not a function of the
directory contents alone: over the byte-identical `icTimeArts` directory,
a run one day after the recorded import date and a run nineteen days after
it produce different warning lists (the second adds `STALE_IMPORT`), so two
runs over byte-identical input at different wall-clock times differ. -/
theorem ic_validation_depends_on_wall_clock :
    IcSim.validate_artifacts icTimeArts (PyNum.ofInt (daysFromCivil 2026 1 2) + 1)
      ≠ IcSim.validate_artifacts icTimeArts (PyNum.ofInt (daysFromCivil 2026 1 2) + 19) := by
  decide

/-- C2 (amended). The validation output is a deterministic function of the
directory contents and the current wall-clock time; the only time
dependence is the `STALE_IMPORT` check over `prior_artifacts.json`, so
whenever that artifact is absent the ic-sim output is independent of the
clock. -/
theorem ic_validation_time_independent_without_prior
    (arts : IcSim.Arts) (h : arts.prior_artifacts = .missing) (now1 now2 : PyNum) :
    IcSim.validate_artifacts arts now1 = IcSim.validate_artifacts arts now2 := by
  unfold IcSim.validate_artifacts
  rw [h]
  rfl

/-- C2 witness: the time-independence theorem applied to the all-missing
directory at two distinct clock values. -/
theorem ic_validation_time_independent_witness :
    IcSim.validate_artifacts icEmptyArts 0 = IcSim.validate_artifacts icEmptyArts 100 :=
  ic_validation_time_independent_without_prior icEmptyArts rfl 0 100

/-- C3. Under `--strict`, the process exit code is 1 iff some
post-resolution warning has severity high or medium; it is 0 whenever every
warning is low, info or acknowledged; and in every mode the full output is
written before any exit is signalled (the write event heads the trace). -/
theorem strict_mode_exit_contract (result : ComposeResult) :
    (processExitCode (mainEvents result true) = 1 ↔
      ∃ w ∈ result.validation.warnings, w.severity = "high" ∨ w.severity = "medium")
    ∧ ((∀ w ∈ result.validation.warnings,
          w.severity = "low" ∨ w.severity = "info" ∨ w.severity = "acknowledged") →
        processExitCode (mainEvents result true) = 0)
    ∧ (∀ strict : Bool, (mainEvents result strict).head? = some (.writeOutput result)) := by
  have hkey := blocking_filter_iff result.validation.warnings
  refine ⟨?_, ?_, fun strict => by cases strict <;> rfl⟩
  · cases he : (result.validation.warnings.filter isBlocking).isEmpty with
    | true =>
      constructor
      · intro h
        exact absurd h (by simp [processExitCode, mainEvents, he])
      · intro hex
        have := hkey.mpr hex
        rw [he] at this
        exact absurd this (by simp)
    | false =>
      constructor
      · intro _
        exact hkey.mp he
      · intro _
        simp [processExitCode, mainEvents, he]
  · intro hall
    cases he : (result.validation.warnings.filter isBlocking).isEmpty with
    | true => simp [processExitCode, mainEvents, he]
    | false =>
      exfalso
      obtain ⟨w, hw, hsev⟩ := hkey.mp he
      rcases hall w hw with h | h | h <;> rw [h] at hsev <;> simp at hsev

/-- C9 counterexample. A top-level `skipped` marker holding the truthy
number 1 is not classified as a stub (`_is_stub` tests `is True`), and the
document stays usable, so it is not excluded from rule evaluation. -/
theorem truthy_skipped_marker_not_stub :
    _is_stub skippedOneDoc = false ∧ Artifact.usable (.val skippedOneDoc) = true := by
  decide

/-- C9 (amended). A parsed artifact is classified as a stub iff its
top-level object maps `skipped` to the JSON literal `true` (any other
truthy marker does not count), and a stub is never usable, so the rules —
each of which is guarded by `_usable` — exclude it from evaluation. -/
theorem stub_iff_skipped_literal_true (v : JVal) :
    (_is_stub v = true ↔ ∃ fs, v = .obj fs ∧ dGet fs "skipped" = some (.bool true))
    ∧ (_is_stub v = true → Artifact.usable (.val v) = false) := by
  constructor
  · constructor
    · intro h
      cases v with
      | obj fs =>
        refine ⟨fs, rfl, ?_⟩
        simp only [_is_stub] at h
        cases hd : dGet fs "skipped" with
        | none => rw [hd] at h; exact absurd h (by simp)
        | some sk =>
          rw [hd] at h
          cases sk with
          | bool b => cases b with
            | true => rfl
            | false => exact absurd h (by simp)
          | null => exact absurd h (by simp)
          | num q => exact absurd h (by simp)
          | str s => exact absurd h (by simp)
          | arr xs => exact absurd h (by simp)
          | obj gs => exact absurd h (by simp)
      | null => simp [_is_stub] at h
      | bool b => simp [_is_stub] at h
      | num q => simp [_is_stub] at h
      | str s => simp [_is_stub] at h
      | arr xs => simp [_is_stub] at h
    · rintro ⟨fs, rfl, hg⟩
      simp [_is_stub, hg]
  · intro h
    simp [Artifact.usable, h]

/-- Every directive the validation loop keeps has a medium-severity code in
the severity table that vetted it. -/
theorem parseAccLoop_all_medium (table : List (String × String)) (l : List JVal)
    (accs : List AccDirective) (h : parseAccLoop table l = .ok accs) :
    ∀ a ∈ accs, lookupStr table a.code = some "medium" := by
  induction l generalizing accs with
  | nil =>
    unfold parseAccLoop at h
    cases h
    simp
  | cons aw rest ih =>
    unfold parseAccLoop at h
    obtain ⟨codev, _, h⟩ := exceptBind_ok h
    obtain ⟨matchv, _, h⟩ := exceptBind_ok h
    split at h
    · exact ih accs h
    · obtain ⟨reasonv, _, h⟩ := exceptBind_ok h
      split at h
      case h_2 => exact ih accs h
      case h_1 rs =>
        split at h
        · exact ih accs h
        · split at h
          case h_2 => exact ih accs h
          case h_1 cs =>
            split at h
            case h_2 => exact ih accs h
            case h_1 sv hsv =>
              split at h
              case isFalse => exact ih accs h
              case isTrue hmed =>
                obtain ⟨more, hmore, hpure⟩ := exceptBind_ok h
                cases hpure
                intro a ha
                rcases List.mem_cons.mp ha with rfl | hmem
                · rw [hsv]
                  exact congrArg some (beq_iff_eq.mp hmed).symm ▸ rfl
                · exact ih more hmore a hmem

/-- A directive whose code differs from the warning's is a clean miss (the
short-circuiting `and` never reaches `.lower()`). -/
theorem accCheck_false_of_code_ne (w : Warning) (acc : AccDirective)
    (h : acc.code ≠ w.code) : accCheck w acc = .ok false := by
  have hb : (acc.code == w.code) = false := beq_eq_false_iff_ne.mpr h
  unfold accCheck
  rw [hb]
  rfl

/-- A warning no directive's code matches passes through unchanged. -/
theorem resolveOne_skip_all (accs : List AccDirective) (w : Warning)
    (h : ∀ a ∈ accs, a.code ≠ w.code) : resolveOne accs w = .ok w := by
  induction accs with
  | nil => rfl
  | cons acc rest ih =>
    unfold resolveOne
    rw [accCheck_false_of_code_ne w acc (h acc (by simp))]
    exact ih (fun a ha => h a (by simp [ha]))

/-- Position-wise reading of the resolution loop. -/
theorem applyAcceptances_get (accs : List AccDirective) (ws ws' : List Warning)
    (h : applyAcceptances accs ws = .ok ws') (i : Nat) (w : Warning)
    (hw : ws.get? i = some w) :
    ∃ w', resolveOne accs w = .ok w' ∧ ws'.get? i = some w' := by
  induction ws generalizing ws' i with
  | nil => simp at hw
  | cons x rest ih =>
    unfold applyAcceptances at h
    obtain ⟨x', hx, h⟩ := exceptBind_ok h
    obtain ⟨rest', hrest, hpure⟩ := exceptBind_ok h
    cases hpure
    cases i with
    | zero =>
      cases hw
      exact ⟨x', hx, rfl⟩
    | succ n => exact ih rest' hrest n hw

/-- C4. Whatever the findings and however the acceptance directives are
crafted, a finding whose code has base severity `high` is left untouched by
the resolution step, in both severity and message: the directive validation
only keeps codes of medium base severity, and a kept directive can
therefore never code-match a high finding. -/
theorem acceptance_never_changes_high_findings
    (profile : Artifact) (accs : List AccDirective) (ws ws' : List Warning)
    (hp : DeckReview.parse_accepted_warnings profile = .ok accs)
    (ha : applyAcceptances accs ws = .ok ws')
    (i : Nat) (w : Warning) (hw : ws.get? i = some w)
    (hh : lookupStr DeckReview.WARNING_SEVERITY w.code = some "high") :
    ws'.get? i = some w := by
  have hmed : ∀ a ∈ accs, lookupStr DeckReview.WARNING_SEVERITY a.code = some "medium" := by
    unfold DeckReview.parse_accepted_warnings at hp
    cases profile with
    | val p =>
      have hp' : (if _is_stub p = true then (Except.ok [] : Except PyErr (List AccDirective))
          else do
            let awv ← pyGet p "accepted_warnings" JVal.null
            parseAccLoop DeckReview.WARNING_SEVERITY (_as_list awv)) = .ok accs := hp
      by_cases hstub : _is_stub p = true
      · rw [if_pos hstub] at hp'
        cases hp'
        simp
      · rw [if_neg hstub] at hp'
        obtain ⟨awv, _, hloop⟩ := exceptBind_ok hp'
        exact parseAccLoop_all_medium _ _ accs hloop
    | missing =>
      cases hp
      simp
    | corrupt =>
      cases hp
      simp
  have hne : ∀ a ∈ accs, a.code ≠ w.code := by
    intro a ha hcontra
    have := hmed a ha
    rw [hcontra, hh] at this
    exact absurd (Option.some.inj this) (by decide)
  obtain ⟨w', h1, h2⟩ := applyAcceptances_get accs ws ws' ha i w hw
  rw [resolveOne_skip_all accs w hne] at h1
  cases h1
  exact h2

/-- C4 witness: the crafted high-targeting directive of `c4Profile` is
rejected by validation, and the high `CORRUPT_ARTIFACT` finding survives
resolution unchanged. -/
theorem acceptance_never_changes_high_witness :
    [c4HighW].get? 0 = some c4HighW :=
  acceptance_never_changes_high_findings c4Profile [] [c4HighW] [c4HighW]
    (by rfl) (by rfl) 0 c4HighW (by rfl) (by rfl)

/-- The inner directive loop implements first-match-wins: the resolved
warning is determined by the first directive with the same code whose match
string is, case-insensitively, a substring of the message. -/
theorem resolveOne_first_match (accs : List AccDirective) (w w' : Warning)
    (h : resolveOne accs w = .ok w') :
    w' = (match accs.find? (accMatchesB w) with
          | some acc =>
            { w with
              severity := "acknowledged",
              message := w.message ++ " [Accepted: " ++ acc.reason ++ "]" }
          | none => w) := by
  induction accs with
  | nil =>
    cases h
    rfl
  | cons acc rest ih =>
    unfold resolveOne at h
    obtain ⟨b, hb, hif⟩ := exceptBind_ok h
    unfold accCheck at hb
    by_cases hcode : (acc.code == w.code) = true
    · rw [if_pos hcode] at hb
      obtain ⟨m, hm, hpure⟩ := exceptBind_ok hb
      have hbval := exceptPure_ok hpure
      cases hms : acc.match_str with
      | str sm =>
        rw [hms] at hm
        cases hm
        have hmatch : accMatchesB w acc
            = (strSub (strLower sm) (strLower w.message)) := by
          unfold accMatchesB
          rw [hms, hcode]
          simp
        cases hsub : strSub (strLower sm) (strLower w.message) with
        | true =>
          rw [hsub] at hbval
          rw [← hbval] at hif
          cases hif
          rw [List.find?_cons_of_pos _ (by rw [hmatch, hsub])]
        | false =>
          rw [hsub] at hbval
          rw [← hbval] at hif
          rw [List.find?_cons_of_neg _ (by rw [hmatch, hsub]; simp)]
          exact ih hif
      | null => rw [hms] at hm; exact absurd hm (by simp [pyLowerStr])
      | bool bb => rw [hms] at hm; exact absurd hm (by simp [pyLowerStr])
      | num q => rw [hms] at hm; exact absurd hm (by simp [pyLowerStr])
      | arr xs => rw [hms] at hm; exact absurd hm (by simp [pyLowerStr])
      | obj fs => rw [hms] at hm; exact absurd hm (by simp [pyLowerStr])
    · rw [if_neg hcode] at hb
      have hbval := exceptPure_ok hb
      rw [← hbval] at hif
      rw [List.find?_cons_of_neg _ (by unfold accMatchesB; simp [hcode])]
      exact ih hif

/-- C5. A medium finding matched by at least one valid directive (same
code, match substring of the message case-insensitively) is set to
`acknowledged` with exactly one `" [Accepted: <reason>]"` suffix carrying
the first matching directive's reason; later matching directives have no
further effect, and an unmatched finding is unchanged. -/
theorem acceptance_first_match_downgrade
    (profile : Artifact) (accs : List AccDirective) (ws ws' : List Warning)
    (hp : DeckReview.parse_accepted_warnings profile = .ok accs)
    (ha : applyAcceptances accs ws = .ok ws')
    (i : Nat) (w : Warning) (hw : ws.get? i = some w) (hm : w.severity = "medium") :
    ws'.get? i = some (match accs.find? (accMatchesB w) with
      | some acc =>
        { w with
          severity := "acknowledged",
          message := w.message ++ " [Accepted: " ++ acc.reason ++ "]" }
      | none => w) := by
  obtain ⟨w', h1, h2⟩ := applyAcceptances_get accs ws ws' ha i w hw
  rw [resolveOne_first_match accs w w' h1] at h2
  exact h2

/-- C5 witness: with two directives matching the medium slide-count finding
of `c5W`, exactly the first one's reason is appended. -/
theorem acceptance_first_match_witness :
    c5Resolved.get? 0 = some (match c5Accs.find? (accMatchesB c5W) with
      | some acc =>
        { c5W with
          severity := "acknowledged",
          message := c5W.message ++ " [Accepted: " ++ acc.reason ++ "]" }
      | none => c5W) :=
  acceptance_first_match_downgrade c5Profile c5Accs [c5W] c5Resolved
    (by rfl) (by rfl) 0 c5W (by rfl) (by rfl)

/-- C6 counterexample. The resolver is not idempotent: on the already
resolved list, a second application with the same directives appends the
acceptance suffix again, so the finding's message differs between one and
two applications. -/
theorem acceptance_resolver_not_idempotent :
    (DeckReview.parse_accepted_warnings c6Profile).bind (fun accs =>
      (applyAcceptances accs [c6Warning]).bind (applyAcceptances accs))
    ≠ (DeckReview.parse_accepted_warnings c6Profile).bind
        (fun accs => applyAcceptances accs [c6Warning]) := by
  decide

/-- A pass of the directive loop either keeps the warning or acknowledges it. -/
theorem resolveOne_ack_or_id (accs : List AccDirective) (w w' : Warning)
    (h : resolveOne accs w = .ok w') : w' = w ∨ w'.severity = "acknowledged" := by
  induction accs with
  | nil =>
    cases h
    exact Or.inl rfl
  | cons acc rest ih =>
    unfold resolveOne at h
    obtain ⟨b, _, hif⟩ := exceptBind_ok h
    cases b with
    | true =>
      cases hif
      exact Or.inr rfl
    | false => exact ih hif

/-- Re-running the directive loop cannot change the severity it produced. -/
theorem resolveOne_severity_stable (accs : List AccDirective) (w w' w'' : Warning)
    (h1 : resolveOne accs w = .ok w') (h2 : resolveOne accs w' = .ok w'') :
    w''.severity = w'.severity := by
  rcases resolveOne_ack_or_id accs w w' h1 with rfl | hack
  · cases h1.symm.trans h2
    rfl
  · rcases resolveOne_ack_or_id accs w' w'' h2 with rfl | hack2
    · rfl
    · rw [hack2, hack]

/-- C6 (amended). Re-applying the Acceptance Resolver to an already
resolved findings list never changes any finding's severity (no new
downgrades appear and acknowledged findings stay acknowledged), but it is
not a no-op: an acknowledged finding whose message still contains a
matching directive's substring is re-matched and the acceptance suffix is
appended to its message again (the counterexample exhibits the doubled
suffix). -/
theorem acceptance_reapplication_preserves_severities
    (accs : List AccDirective) (ws ws1 ws2 : List Warning)
    (h1 : applyAcceptances accs ws = .ok ws1)
    (h2 : applyAcceptances accs ws1 = .ok ws2) :
    ws2.map Warning.severity = ws1.map Warning.severity := by
  induction ws generalizing ws1 ws2 with
  | nil =>
    cases h1
    cases h2
    rfl
  | cons w rest ih =>
    unfold applyAcceptances at h1
    obtain ⟨w', hw', h1⟩ := exceptBind_ok h1
    obtain ⟨rest', hrest', hp1⟩ := exceptBind_ok h1
    cases hp1
    unfold applyAcceptances at h2
    obtain ⟨w'', hw'', h2⟩ := exceptBind_ok h2
    obtain ⟨rest'', hrest'', hp2⟩ := exceptBind_ok h2
    cases hp2
    simp only [List.map_cons]
    rw [resolveOne_severity_stable accs w w' w'' hw' hw'', ih rest' rest'' hrest' hrest'']

/-- C6 witness: both resolver passes over `[c6Warning]` leave the severity
list at `["acknowledged"]`, although the messages differ. -/
theorem acceptance_reapplication_severities_witness :
    c6Resolved2.map Warning.severity = c6Resolved1.map Warning.severity :=
  acceptance_reapplication_preserves_severities c6AccsList [c6Warning]
    c6Resolved1 c6Resolved2 (by rfl) (by rfl)

/-- Appending to equal strings on the left cancels. -/
theorem string_append_cancel_left {s t u : String} (h : s ++ t = s ++ u) : t = u := by
  cases s with
  | mk sd =>
    cases t with
    | mk td =>
      cases u with
      | mk ud =>
        injection h with h
        exact congrArg String.mk (List.append_cancel_left h)

/-- A missing required artifact contributes its `MISSING_ARTIFACT` finding. -/
theorem requiredPresence_missing_mem (table : List (String × String)) (required : List String)
    (get : String → Artifact) (n : String) (hn : n ∈ required) (hm : get n = .missing) :
    mkWarn table "MISSING_ARTIFACT" ("Required artifact missing: " ++ n)
      ∈ requiredPresence table required get := by
  unfold requiredPresence
  rw [List.mem_flatten]
  refine ⟨_, List.mem_map_of_mem _ hn, ?_⟩
  rw [hm]
  simp

/-- A corrupt required artifact contributes its `CORRUPT_ARTIFACT` finding. -/
theorem requiredPresence_corrupt_mem (table : List (String × String)) (required : List String)
    (get : String → Artifact) (n : String) (hn : n ∈ required) (hm : get n = .corrupt) :
    mkWarn table "CORRUPT_ARTIFACT" ("Artifact has invalid JSON: " ++ n)
      ∈ requiredPresence table required get := by
  unfold requiredPresence
  rw [List.mem_flatten]
  refine ⟨_, List.mem_map_of_mem _ hn, ?_⟩
  rw [hm]
  simp

/-- Conversely, a `MISSING_ARTIFACT` presence finding names a required
artifact that really is missing. -/
theorem requiredPresence_missing_inv (table : List (String × String)) (required : List String)
    (get : String → Artifact) (w : Warning)
    (hw : w ∈ requiredPresence table required get) (hc : w.code = "MISSING_ARTIFACT") :
    ∃ m ∈ required, get m = .missing ∧ w.message = "Required artifact missing: " ++ m := by
  unfold requiredPresence at hw
  rw [List.mem_flatten] at hw
  obtain ⟨l, hl, hwl⟩ := hw
  rw [List.mem_map] at hl
  obtain ⟨m, hm, rfl⟩ := hl
  cases hget : get m with
  | missing =>
    rw [hget] at hwl
    rcases List.mem_singleton.mp hwl with rfl
    exact ⟨m, hm, hget, rfl⟩
  | corrupt =>
    rw [hget] at hwl
    rcases List.mem_singleton.mp hwl with rfl
    exact absurd (show ("CORRUPT_ARTIFACT" : String) = "MISSING_ARTIFACT" from hc) (by decide)
  | val v =>
    rw [hget] at hwl
    simp at hwl

/-- Codes of the deck checklist-failures check. -/
theorem deck_rule3_code (c : Artifact) (l : List Warning)
    (h : DeckReview.rule_checklist_failures c = .ok l) :
    ∀ w ∈ l, w.code = "CHECKLIST_FAILURES_CRITICAL" := by
  cases c with
  | missing => cases h; simp
  | corrupt => cases h; simp
  | val cv =>
    simp only [DeckReview.rule_checklist_failures] at h
    split at h
    · cases h; simp
    · obtain ⟨sv, _, h⟩ := exceptBind_ok h
      obtain ⟨gt, _, h⟩ := exceptBind_ok h
      split at h
      · cases h
        intro w hw
        rcases List.mem_singleton.mp hw with rfl
        rfl
      · cases h; simp

/-- Codes of the deck stage-mismatch check. -/
theorem deck_rule4_code (a b : Artifact) (l : List Warning)
    (h : DeckReview.rule_stage_mismatch a b = .ok l) :
    ∀ w ∈ l, w.code = "STAGE_MISMATCH" := by
  cases a with
  | missing => cases h; simp
  | corrupt => cases h; simp
  | val av =>
    cases b with
    | missing => cases h; simp
    | corrupt => cases h; simp
    | val bv =>
      simp only [DeckReview.rule_stage_mismatch] at h
      split at h
      · cases h; simp
      · obtain ⟨cv, _, h⟩ := exceptBind_ok h
        obtain ⟨claimed, _, h⟩ := exceptBind_ok h
        obtain ⟨dv, _, h⟩ := exceptBind_ok h
        obtain ⟨detected, _, h⟩ := exceptBind_ok h
        split at h
        · cases h
          intro w hw
          rcases List.mem_singleton.mp hw with rfl
          rfl
        · cases h; simp

/-- Codes of the deck stage-out-of-scope check. -/
theorem deck_rule5_code (a b : Artifact) (l : List Warning)
    (h : DeckReview.rule_stage_out_of_scope a b = .ok l) :
    ∀ w ∈ l, w.code = "STAGE_OUT_OF_SCOPE" := by
  unfold DeckReview.rule_stage_out_of_scope at h
  obtain ⟨fp, _, h⟩ := exceptBind_ok h
  obtain ⟨fi, _, h⟩ := exceptBind_ok h
  have h' : (if (fp ++ fi).isEmpty then (pure [] : Except PyErr (List Warning))
      else pure [DeckReview._warn "STAGE_OUT_OF_SCOPE"
        ("Stage '" ++ joinWith ", " (fp ++ fi) ++ "' is outside calibrated range "
          ++ "(pre_seed, seed, series_a). Results may be less precise.")]) = .ok l := h
  split at h'
  · cases h'; simp
  · cases h'
    intro w hw
    rcases List.mem_singleton.mp hw with rfl
    rfl

/-- Codes of the deck slide-count check. -/
theorem deck_rule6_code (a : Artifact) (l : List Warning)
    (h : DeckReview.rule_slide_count a = .ok l) :
    ∀ w ∈ l, w.code = "SLIDE_COUNT_EXTREME" := by
  cases a with
  | missing => cases h; simp
  | corrupt => cases h; simp
  | val av =>
    simp only [DeckReview.rule_slide_count] at h
    split at h
    · cases h; simp
    · obtain ⟨total, _, h⟩ := exceptBind_ok h
      obtain ⟨lt, _, h⟩ := exceptBind_ok h
      split at h
      · cases h
        intro w hw
        rcases List.mem_singleton.mp hw with rfl
        rfl
      · obtain ⟨gt, _, h⟩ := exceptBind_ok h
        split at h
        · cases h
          intro w hw
          rcases List.mem_singleton.mp hw with rfl
          rfl
        · cases h; simp

/-- Codes of the per-review loop of the uncited-critique check. -/
theorem deck_uncitedLoop_code (rs : List JVal) (l : List Warning)
    (h : DeckReview.uncitedLoop rs = .ok l) :
    ∀ w ∈ l, w.code = "UNCITED_CRITIQUE" := by
  induction rs generalizing l with
  | nil => cases h; simp
  | cons r rest ih =>
    unfold DeckReview.uncitedLoop at h
    obtain ⟨here, hhere, h⟩ := exceptBind_ok h
    obtain ⟨more, hmore, h⟩ := exceptBind_ok h
    cases h
    intro w hw
    rcases List.mem_append.mp hw with hw | hw
    · simp only [DeckReview.uncitedOne] at hhere
      obtain ⟨wv, _, hhere⟩ := exceptBind_ok hhere
      obtain ⟨rv, _, hhere⟩ := exceptBind_ok hhere
      split at hhere
      · obtain ⟨sn, _, hhere⟩ := exceptBind_ok hhere
        cases hhere
        rcases List.mem_singleton.mp hw with rfl
        rfl
      · cases hhere; simp at hw
    · exact ih more hmore w hw

/-- Codes of the deck uncited-critique check. -/
theorem deck_rule7_code (a : Artifact) (l : List Warning)
    (h : DeckReview.rule_uncited a = .ok l) :
    ∀ w ∈ l, w.code = "UNCITED_CRITIQUE" := by
  cases a with
  | missing => cases h; simp
  | corrupt => cases h; simp
  | val av =>
    simp only [DeckReview.rule_uncited] at h
    split at h
    · cases h; simp
    · obtain ⟨rl, _, h⟩ := exceptBind_ok h
      exact deck_uncitedLoop_code _ _ h

/-- Codes of the deck AI-criteria check. -/
theorem deck_rule8_code (a b : Artifact) (l : List Warning)
    (h : DeckReview.rule_ai_criteria a b = .ok l) :
    ∀ w ∈ l, w.code = "AI_CRITERIA_SKIPPED" := by
  cases a with
  | missing => cases h; simp
  | corrupt => cases h; simp
  | val av =>
    cases b with
    | missing => cases h; simp
    | corrupt => cases h; simp
    | val bv =>
      simp only [DeckReview.rule_ai_criteria] at h
      split at h
      · cases h; simp
      · obtain ⟨isAi, _, h⟩ := exceptBind_ok h
        split at h
        · obtain ⟨itemsv, _, h⟩ := exceptBind_ok h
          obtain ⟨aiItems, _, h⟩ := exceptBind_ok h
          split at h
          · obtain ⟨allNA, _, h⟩ := exceptBind_ok h
            split at h
            · cases h
              intro w hw
              rcases List.mem_singleton.mp hw with rfl
              rfl
            · cases h; simp
          · cases h; simp
        · cases h; simp

/-- Split of the deck `validate_artifacts` output into its per-check parts. -/
theorem deck_validate_decomp (arts : DeckReview.Arts) (ws : List Warning)
    (h : DeckReview.validate_artifacts arts = .ok ws) :
    ∃ l3 l4 l5 l6 l7 l8,
      DeckReview.rule_checklist_failures arts.checklist = .ok l3
      ∧ DeckReview.rule_stage_mismatch arts.deck_inventory arts.stage_profile = .ok l4
      ∧ DeckReview.rule_stage_out_of_scope arts.deck_inventory arts.stage_profile = .ok l5
      ∧ DeckReview.rule_slide_count arts.deck_inventory = .ok l6
      ∧ DeckReview.rule_uncited arts.slide_reviews = .ok l7
      ∧ DeckReview.rule_ai_criteria arts.stage_profile arts.checklist = .ok l8
      ∧ ws = requiredPresence DeckReview.WARNING_SEVERITY DeckReview.REQUIRED_ARTIFACTS arts.get
          ++ l3 ++ l4 ++ l5 ++ l6 ++ l7 ++ l8 := by
  unfold DeckReview.validate_artifacts at h
  obtain ⟨l3, h3, h⟩ := exceptBind_ok h
  obtain ⟨l4, h4, h⟩ := exceptBind_ok h
  obtain ⟨l5, h5, h⟩ := exceptBind_ok h
  obtain ⟨l6, h6, h⟩ := exceptBind_ok h
  obtain ⟨l7, h7, h⟩ := exceptBind_ok h
  obtain ⟨l8, h8, h⟩ := exceptBind_ok h
  cases h
  exact ⟨l3, l4, l5, l6, l7, l8, h3, h4, h5, h6, h7, h8, rfl⟩

/-- C7. For every required artifact name: a missing file yields a
`MISSING_ARTIFACT` finding naming it; a corrupt (present but unparseable)
file yields a `CORRUPT_ARTIFACT` finding naming it, no `MISSING_ARTIFACT`
finding for the same name exists anywhere in the output (mutual
exclusion), and the name is not listed in `artifacts_missing`. -/
theorem presence_findings_mutual_exclusion
    (arts : DeckReview.Arts) (ws : List Warning)
    (h : DeckReview.validate_artifacts arts = .ok ws)
    (n : String) (hn : n ∈ DeckReview.REQUIRED_ARTIFACTS) :
    (arts.get n = .missing →
      DeckReview._warn "MISSING_ARTIFACT" ("Required artifact missing: " ++ n) ∈ ws)
    ∧ (arts.get n = .corrupt →
      DeckReview._warn "CORRUPT_ARTIFACT" ("Artifact has invalid JSON: " ++ n) ∈ ws
      ∧ (∀ w ∈ ws, w.code = "MISSING_ARTIFACT" →
          w.message ≠ "Required artifact missing: " ++ n)
      ∧ n ∉ DeckReview.artifacts_missing arts) := by
  obtain ⟨l3, l4, l5, l6, l7, l8, h3, h4, h5, h6, h7, h8, rfl⟩ := deck_validate_decomp arts ws h
  constructor
  · intro hm
    have := requiredPresence_missing_mem DeckReview.WARNING_SEVERITY
      DeckReview.REQUIRED_ARTIFACTS arts.get n hn hm
    simp only [List.append_assoc, List.mem_append]
    exact Or.inl this
  · intro hcor
    refine ⟨?_, ?_, ?_⟩
    · have := requiredPresence_corrupt_mem DeckReview.WARNING_SEVERITY
        DeckReview.REQUIRED_ARTIFACTS arts.get n hn hcor
      simp only [List.append_assoc, List.mem_append]
      exact Or.inl this
    · intro w hw hcode hmsg
      simp only [List.append_assoc, List.mem_append] at hw
      rcases hw with hw | hw | hw | hw | hw | hw | hw
      · obtain ⟨m, _, hmMiss, hmMsg⟩ := requiredPresence_missing_inv _ _ _ w hw hcode
        rw [hmsg] at hmMsg
        have := string_append_cancel_left hmMsg
        rw [this] at hcor
        rw [hmMiss] at hcor
        exact Artifact.noConfusion hcor
      · exact absurd (deck_rule3_code _ _ h3 w hw) (by rw [hcode]; decide)
      · exact absurd (deck_rule4_code _ _ _ h4 w hw) (by rw [hcode]; decide)
      · exact absurd (deck_rule5_code _ _ _ h5 w hw) (by rw [hcode]; decide)
      · exact absurd (deck_rule6_code _ _ h6 w hw) (by rw [hcode]; decide)
      · exact absurd (deck_rule7_code _ _ h7 w hw) (by rw [hcode]; decide)
      · exact absurd (deck_rule8_code _ _ _ h8 w hw) (by rw [hcode]; decide)
    · intro hmem
      unfold DeckReview.artifacts_missing at hmem
      rw [List.mem_filter] at hmem
      have := hmem.2
      rw [hcor] at this
      exact absurd this (by decide)

/-- C7 witness: on a directory whose checklist is corrupt and the rest
missing, the corrupt finding is present, no missing finding mentions the
checklist, and the checklist is not listed as missing. -/
theorem presence_findings_witness :
    DeckReview._warn "CORRUPT_ARTIFACT" "Artifact has invalid JSON: checklist.json" ∈ c7Ws
    ∧ "checklist.json" ∉ DeckReview.artifacts_missing c7Arts := by
  have hmain := presence_findings_mutual_exclusion c7Arts c7Ws (by rfl)
    "checklist.json" (by decide)
  obtain ⟨ha, _, hc⟩ := hmain.2 (by rfl)
  exact ⟨ha, hc⟩

/-- Bind on an `ok` value reduces to the continuation. -/
theorem exceptBind_ok_left {ε α β : Type} (a : α) (f : α → Except ε β) :
    ((Except.ok a : Except ε α) >>= f) = f a := rfl

/-- Python `==` against a string is only true for that very string. -/
theorem pyEq_str_inv (v : JVal) (s : String) (h : pyEq v (.str s) = true) : v = .str s := by
  cases v with
  | str t => exact congrArg JVal.str (beq_iff_eq.mp h)
  | null => exact Bool.noConfusion h
  | bool b => exact Bool.noConfusion h
  | num q => exact Bool.noConfusion h
  | arr l => exact Bool.noConfusion h
  | obj fs => exact Bool.noConfusion h

/-- What the classification step of `_compute_provenance` returns:
`unknown` exactly for an empty resolution, `agent_estimate` as soon as one
resolved category equals `"agent_estimate"`, `sourced` when all resolved
categories equal `"sourced"`, else `derived`. -/
theorem classifyResolved_spec (resolved : List (String × JVal)) (c : String)
    (h : MarketSizing.classifyResolved resolved = .ok c) :
    (c = "unknown" ↔ resolved = [])
    ∧ ((resolved.map (fun p => p.2)).any (fun x => pyEq x (.str "agent_estimate")) = true →
        c = "agent_estimate")
    ∧ (resolved ≠ [] →
        (resolved.map (fun p => p.2)).all (fun x => pyEq x (.str "sourced")) = true →
        c = "sourced")
    ∧ (resolved ≠ [] →
        (resolved.map (fun p => p.2)).any (fun x => pyEq x (.str "agent_estimate")) = false →
        (resolved.map (fun p => p.2)).all (fun x => pyEq x (.str "sourced")) = false →
        c = "derived") := by
  unfold MarketSizing.classifyResolved at h
  split at h
  · rename_i hemp
    have hres : resolved = [] := List.isEmpty_iff.mp hemp
    have hc : c = "unknown" := (exceptPure_ok h).symm
    subst hres
    subst hc
    refine ⟨by simp, ?_, ?_, ?_⟩
    · intro ha; simp at ha
    · intro hne _; exact absurd rfl hne
    · intro hne _ _; exact absurd rfl hne
  · rename_i hemp
    have hne : resolved ≠ [] := by
      intro hres; subst hres; exact hemp rfl
    unfold MarketSizing.classifyCats at h
    split at h
    · injection h with hc
      subst hc
      refine ⟨?_, ?_, ?_, ?_⟩
      · constructor
        · intro hu
          split at hu
          · exact absurd hu (by decide)
          · split at hu
            · exact absurd hu (by decide)
            · exact absurd hu (by decide)
        · intro hres; exact absurd hres hne
      · intro hA
        simp [hA]
      · intro hne2 hS
        have hA : (resolved.map (fun p => p.2)).any
            (fun x => pyEq x (.str "agent_estimate")) = false := by
          rw [List.any_eq_false]
          intro x hx
          have hxs := List.all_eq_true.mp hS x hx
          rw [pyEq_str_inv x "sourced" hxs]
          decide
        have hE : (resolved.map (fun p => p.2)).isEmpty = false := by
          cases resolved with
          | nil => exact absurd rfl hne2
          | cons a l => rfl
        simp [hA, hS, hE]
      · intro hne2 hA hS
        simp [hA, hS]
    · exact Except.noConfusion h

/-- Inversion of the per-figure body: a successful record carries its own
classification and delta computations, over the figure dict looked up in the
approach data. -/
theorem provMetric_inv (am : List (JVal × JVal)) (claims : List (String × JVal))
    (approach_data : JVal) (metric : String) (e : MarketSizing.ProvEntry)
    (unres : List (String × String))
    (h : MarketSizing.provMetric am claims approach_data metric = .ok (e, unres)) :
    ∃ mv,
      pyGet approach_data metric .null = .ok mv
      ∧ MarketSizing.classifyResolved e.input_provenances = .ok e.classification
      ∧ MarketSizing.deltaFor e.deck_claim ((dGet (_as_dict mv) "value").getD (.num 0))
          = .ok e.delta_vs_deck_pct := by
  unfold MarketSizing.provMetric at h
  obtain ⟨mv, hmv, h⟩ := exceptBind_ok h
  obtain ⟨cl, hcl, h⟩ := exceptBind_ok h
  obtain ⟨dl, hdl, h⟩ := exceptBind_ok h
  have hp := exceptPure_ok h
  injection hp with h1 h2
  subst h2
  subst h1
  exact ⟨mv, hmv, hcl, hdl⟩

/-- Inversion of the per-approach loop body when it produced entries: the
approach data was present and tam/sam/som were processed in order. -/
theorem provApproach_some_inv (am : List (JVal × JVal)) (claims : List (String × JVal))
    (sizing : JVal) (ak : String) (es : List (String × MarketSizing.ProvEntry))
    (u : List (String × String))
    (h : MarketSizing.provApproach am claims sizing ak = .ok (some (es, u))) :
    ∃ ad e1 u1 e2 u2 e3 u3,
      pyGet sizing ak .null = .ok ad
      ∧ MarketSizing.provMetric am claims ad "tam" = .ok (e1, u1)
      ∧ MarketSizing.provMetric am claims ad "sam" = .ok (e2, u2)
      ∧ MarketSizing.provMetric am claims ad "som" = .ok (e3, u3)
      ∧ es = [("tam", e1), ("sam", e2), ("som", e3)]
      ∧ u = u1 ++ u2 ++ u3 := by
  unfold MarketSizing.provApproach at h
  obtain ⟨ad, had, h⟩ := exceptBind_ok h
  cases ad
  case null => exact Option.noConfusion (exceptPure_ok h)
  all_goals
    obtain ⟨p1, h1, h⟩ := exceptBind_ok h
    obtain ⟨e1, u1⟩ := p1
    obtain ⟨p2, h2, h⟩ := exceptBind_ok h
    obtain ⟨e2, u2⟩ := p2
    obtain ⟨p3, h3, h⟩ := exceptBind_ok h
    obtain ⟨e3, u3⟩ := p3
    have hp := exceptPure_ok h
    injection hp with hp
    injection hp with hE hU
    exact ⟨_, e1, u1, e2, u2, e3, u3, had, h1, h2, h3, hE.symm, hU.symm⟩

/-- A figure record `provGet` finds sits in the provenance map. -/
theorem provGet_mem_inv (prov : List (String × List (String × MarketSizing.ProvEntry)))
    (ak mk : String) (e : MarketSizing.ProvEntry)
    (he : MarketSizing.provGet prov ak mk = some e) :
    ∃ es, (ak, es) ∈ prov ∧ (mk, e) ∈ es := by
  unfold MarketSizing.provGet at he
  cases hf : prov.find? (fun p => p.1 == ak) with
  | none =>
    rw [hf] at he
    exact Option.noConfusion he
  | some pr =>
    rw [hf] at he
    have he' : (pr.2.find? (fun p => p.1 == mk)).map (fun p => p.2) = some e := he
    rw [Option.map_eq_some'] at he'
    obtain ⟨pr2, hf2, he2⟩ := he'
    have hak0 := List.find?_some hf
    have hak : pr.1 = ak := beq_iff_eq.mp hak0
    have hmk0 := List.find?_some hf2
    have hmk : pr2.1 = mk := beq_iff_eq.mp hmk0
    refine ⟨pr.2, ?_, ?_⟩
    · have hme := List.mem_of_find?_eq_some hf
      rw [← hak]
      exact hme
    · have hme2 := List.mem_of_find?_eq_some hf2
      rw [← hmk, ← he2]
      exact hme2

/-- Every figure record reachable through `provGet` from a successful
`_compute_provenance` run came out of `provMetric` on the looked-up
approach data. -/
theorem compute_provenance_provGet_inv
    (sizing : JVal) (validation inputs : Option JVal)
    (prov : List (String × List (String × MarketSizing.ProvEntry)))
    (unres : List (String × String)) (ak mk : String) (e : MarketSizing.ProvEntry)
    (h : MarketSizing._compute_provenance sizing validation inputs = .ok (prov, unres))
    (he : MarketSizing.provGet prov ak mk = some e) :
    ∃ am claims ad u,
      pyGet sizing ak .null = .ok ad
      ∧ MarketSizing.provMetric am claims ad mk = .ok (e, u) := by
  unfold MarketSizing._compute_provenance at h
  obtain ⟨am, _, h⟩ := exceptBind_ok h
  obtain ⟨claims, _, h⟩ := exceptBind_ok h
  obtain ⟨td, htd, h⟩ := exceptBind_ok h
  obtain ⟨bu, hbu, h⟩ := exceptBind_ok h
  have hp := exceptPure_ok h
  injection hp with hPr hUn
  subst hPr
  obtain ⟨es0, hmem, hmem2⟩ := provGet_mem_inv _ ak mk e he
  rw [List.mem_append] at hmem
  rcases hmem with hmem | hmem
  · cases td with
    | none => exact absurd hmem (List.not_mem_nil _)
    | some p =>
      obtain ⟨es1, u1⟩ := p
      have heq := List.mem_singleton.mp hmem
      injection heq with hak hes
      subst hak
      obtain ⟨ad, e1, v1, e2, v2, e3, v3, had, h1, h2, h3, hesv, _⟩ :=
        provApproach_some_inv am claims sizing "top_down" es1 u1 htd
      rw [hes, hesv] at hmem2
      simp only [List.mem_cons, List.not_mem_nil, or_false] at hmem2
      rcases hmem2 with heq2 | heq2 | heq2
      · injection heq2 with hmk hee
        subst hmk; subst hee
        exact ⟨am, claims, ad, v1, had, h1⟩
      · injection heq2 with hmk hee
        subst hmk; subst hee
        exact ⟨am, claims, ad, v2, had, h2⟩
      · injection heq2 with hmk hee
        subst hmk; subst hee
        exact ⟨am, claims, ad, v3, had, h3⟩
  · cases bu with
    | none => exact absurd hmem (List.not_mem_nil _)
    | some p =>
      obtain ⟨es1, u1⟩ := p
      have heq := List.mem_singleton.mp hmem
      injection heq with hak hes
      subst hak
      obtain ⟨ad, e1, v1, e2, v2, e3, v3, had, h1, h2, h3, hesv, _⟩ :=
        provApproach_some_inv am claims sizing "bottom_up" es1 u1 hbu
      rw [hes, hesv] at hmem2
      simp only [List.mem_cons, List.not_mem_nil, or_false] at hmem2
      rcases hmem2 with heq2 | heq2 | heq2
      · injection heq2 with hmk hee
        subst hmk; subst hee
        exact ⟨am, claims, ad, v1, had, h1⟩
      · injection heq2 with hmk hee
        subst hmk; subst hee
        exact ⟨am, claims, ad, v2, had, h2⟩
      · injection heq2 with hmk hee
        subst hmk; subst hee
        exact ⟨am, claims, ad, v3, had, h3⟩

/-- C8. For every figure (tam/sam/som under top_down or bottom_up) of a
successful `_compute_provenance` run: the classification is `unknown` iff no
quantitative parameter resolved to an assumption category; `agent_estimate`
when some resolved category is `agent_estimate`; `sourced` when all resolved
categories are `sourced`; `derived` otherwise. The delta against the deck
claim is `None` when there is no claim, the claim does not convert with
`float`, or it converts to a non-positive number; for a positive numeric
claim it is `(calculated − claimed) / claimed × 100` ROUNDED to one decimal
place (`round(..., 1)`, half-to-even), where `calculated` is `float` of the
figure's `value` — the spec's claim that the delta equals the unrounded
formula is corrected by the rounding step. -/
theorem provenance_classification_and_rounded_delta
    (sizing : JVal) (validation inputs : Option JVal)
    (prov : List (String × List (String × MarketSizing.ProvEntry)))
    (unres : List (String × String)) (ak mk : String) (e : MarketSizing.ProvEntry)
    (h : MarketSizing._compute_provenance sizing validation inputs = .ok (prov, unres))
    (he : MarketSizing.provGet prov ak mk = some e) :
    (e.classification = "unknown" ↔ e.input_provenances = [])
    ∧ ((e.input_provenances.map (fun p => p.2)).any
          (fun x => pyEq x (.str "agent_estimate")) = true →
        e.classification = "agent_estimate")
    ∧ (e.input_provenances ≠ [] →
        (e.input_provenances.map (fun p => p.2)).all
          (fun x => pyEq x (.str "sourced")) = true →
        e.classification = "sourced")
    ∧ (e.input_provenances ≠ [] →
        (e.input_provenances.map (fun p => p.2)).any
          (fun x => pyEq x (.str "agent_estimate")) = false →
        (e.input_provenances.map (fun p => p.2)).all
          (fun x => pyEq x (.str "sourced")) = false →
        e.classification = "derived")
    ∧ (e.deck_claim = none → e.delta_vs_deck_pct = none)
    ∧ (∀ dc, e.deck_claim = some dc → pyFloatTry dc = none → e.delta_vs_deck_pct = none)
    ∧ (∀ dc claim, e.deck_claim = some dc → pyFloatTry dc = some claim →
        PyNum.qle claim 0 = true → e.delta_vs_deck_pct = none)
    ∧ (∀ dc claim, e.deck_claim = some dc → pyFloatTry dc = some claim →
        PyNum.qle claim 0 = false →
        ∃ v calcv, MarketSizing.figureValue sizing ak mk = .ok v ∧ pyFloat v = .ok calcv
          ∧ e.delta_vs_deck_pct = some (roundTo1 ((calcv - claim) / claim * 100))) := by
  obtain ⟨am, claims, ad, u, had, hm⟩ :=
    compute_provenance_provGet_inv sizing validation inputs prov unres ak mk e h he
  obtain ⟨mv, hmv, hcl, hdl⟩ := provMetric_inv am claims ad mk e u hm
  obtain ⟨hiff, hA, hS, hD⟩ := classifyResolved_spec e.input_provenances e.classification hcl
  refine ⟨hiff, hA, hS, hD, ?_, ?_, ?_, ?_⟩
  · intro hnone
    rw [hnone] at hdl
    exact (exceptPure_ok hdl).symm
  · intro dc hdc hft
    rw [hdc] at hdl
    obtain ⟨calcv, hcv, hdl⟩ := exceptBind_ok hdl
    have hdel := exceptPure_ok hdl
    rw [← hdel]
    unfold MarketSizing._compute_delta
    rw [hft]
  · intro dc claim hdc hft hq
    rw [hdc] at hdl
    obtain ⟨calcv, hcv, hdl⟩ := exceptBind_ok hdl
    have hdel := exceptPure_ok hdl
    rw [← hdel]
    unfold MarketSizing._compute_delta
    rw [hft]
    simp [hq]
  · intro dc claim hdc hft hq
    rw [hdc] at hdl
    obtain ⟨calcv, hcv, hdl⟩ := exceptBind_ok hdl
    have hdel := exceptPure_ok hdl
    refine ⟨(dGet (_as_dict mv) "value").getD (.num 0), calcv, ?_, hcv, ?_⟩
    · simp only [MarketSizing.figureValue, had, exceptBind_ok_left, hmv]
      rfl
    · rw [← hdel]
      unfold MarketSizing._compute_delta
      rw [hft]
      simp [hq]

/-- C8 witness: the theorem applied to the concrete `c8Sizing` directory,
whose TAM figure classifies as `sourced`. -/
theorem provenance_classification_delta_witness :
    c8e.classification = "unknown" ↔ c8e.input_provenances = [] :=
  (provenance_classification_and_rounded_delta c8Sizing (some c8Validation) (some c8Inputs)
    c8Prov [] "top_down" "tam" c8e (by rfl) (by rfl)).1

/-- C8 counterexample to the claim as stated: on the `c8Sizing` directory
the TAM figure has calculated value 1 and deck claim 3, the code stores
delta −66.7 (rounded), and −66.7 does not equal the exact
`(1 − 3) / 3 × 100 = −200/3` the claim prescribes. -/
theorem delta_differs_from_exact_formula :
    MarketSizing._compute_provenance c8Sizing (some c8Validation) (some c8Inputs)
      = .ok (c8Prov, [])
    ∧ MarketSizing.provGet c8Prov "top_down" "tam" = some c8e
    ∧ c8e.deck_claim = some (.num (PyNum.ofInt 3))
    ∧ MarketSizing.figureValue c8Sizing "top_down" "tam" = .ok (.num (PyNum.ofInt 1))
    ∧ c8e.delta_vs_deck_pct = some (PyNum.mk (-667) 10)
    ∧ PyNum.qeq (PyNum.mk (-667) 10)
        ((PyNum.ofInt 1 - PyNum.ofInt 3) / PyNum.ofInt 3 * PyNum.ofInt 100) = false :=
  ⟨rfl, rfl, rfl, rfl, rfl, by decide⟩

/-- Inverting an `if` over `Except` results (sees through surrounding
`let`-bindings by unfolding). -/
theorem ifExcept_inv {ε α : Type} {c : Prop} [Decidable c] {x y : Except ε α} {b : α}
    (h : (if c then x else y) = .ok b) : x = .ok b ∨ y = .ok b := by
  split at h
  · exact Or.inl h
  · exact Or.inr h

/-- A presence-loop finding is a missing or a corrupt finding. -/
theorem requiredPresence_code_mem (table : List (String × String)) (required : List String)
    (get : String → Artifact) (w : Warning) (hw : w ∈ requiredPresence table required get) :
    w.code = "MISSING_ARTIFACT" ∨ w.code = "CORRUPT_ARTIFACT" := by
  unfold requiredPresence at hw
  rw [List.mem_flatten] at hw
  obtain ⟨l, hl, hwl⟩ := hw
  rw [List.mem_map] at hl
  obtain ⟨m, hm, rfl⟩ := hl
  cases hget : get m with
  | missing =>
    rw [hget] at hwl
    rcases List.mem_singleton.mp hwl with rfl
    exact Or.inl rfl
  | corrupt =>
    rw [hget] at hwl
    rcases List.mem_singleton.mp hwl with rfl
    exact Or.inr rfl
  | val v =>
    rw [hget] at hwl
    simp at hwl

/-- Codes of ic-sim check 2. -/
theorem ic_blocking_code (a : Artifact) (l : List Warning)
    (h : IcSim.rule_blocking_conflict a = .ok l) :
    ∀ w ∈ l, w.code ≠ "PARTNER_UNANIMITY" := by
  cases a with
  | missing => cases h; simp
  | corrupt => cases h; simp
  | val v =>
    simp only [IcSim.rule_blocking_conflict] at h
    split at h
    · cases h; simp
    · obtain ⟨sv, _, h⟩ := exceptBind_ok h
      cases hd : dGet (_as_dict sv) "has_blocking_conflict" with
      | none => rw [hd] at h; cases h; simp
      | some v2 =>
        rw [hd] at h
        cases v2
        case bool b =>
          cases b
          · cases h; simp
          · cases h
            intro w hw
            rcases List.mem_singleton.mp hw with rfl
            exact (by decide : ("BLOCKING_CONFLICT" : String) ≠ "PARTNER_UNANIMITY")
        all_goals (cases h; simp)

/-- Codes of the conflict loop of ic-sim check 3. -/
theorem ic_orphanLoop_code (names : List String) (cs : List JVal) (l : List Warning)
    (h : IcSim.orphanLoop names cs = .ok l) :
    ∀ w ∈ l, w.code ≠ "PARTNER_UNANIMITY" := by
  induction cs generalizing l with
  | nil => cases h; simp
  | cons c rest ih =>
    unfold IcSim.orphanLoop at h
    obtain ⟨company, _, h⟩ := exceptBind_ok h
    obtain ⟨nm, _, h⟩ := exceptBind_ok h
    obtain ⟨more, hmore, h⟩ := exceptBind_ok h
    cases h
    intro w hw
    rcases List.mem_append.mp hw with hw | hw
    · split at hw
      · exact absurd hw (List.not_mem_nil _)
      · rcases List.mem_singleton.mp hw with rfl
        exact (by decide : ("ORPHANED_CONFLICT" : String) ≠ "PARTNER_UNANIMITY")
    · exact ih more hmore w hw

/-- Codes of ic-sim check 3. -/
theorem ic_orphaned_code (a b : Artifact) (l : List Warning)
    (h : IcSim.rule_orphaned a b = .ok l) :
    ∀ w ∈ l, w.code ≠ "PARTNER_UNANIMITY" := by
  cases a with
  | missing => cases h; simp
  | corrupt => cases h; simp
  | val cc =>
    cases b with
    | missing => cases h; simp
    | corrupt => cases h; simp
    | val fp =>
      simp only [IcSim.rule_orphaned] at h
      split at h
      · cases h; simp
      · obtain ⟨pv, _, h⟩ := exceptBind_ok h
        obtain ⟨names, _, h⟩ := exceptBind_ok h
        obtain ⟨cv, _, h⟩ := exceptBind_ok h
        exact ic_orphanLoop_code names _ l h

/-- Codes of ic-sim check 4. -/
theorem ic_verdict_score_code (a : Artifact) (l : List Warning)
    (h : IcSim.rule_verdict_score a = .ok l) :
    ∀ w ∈ l, w.code ≠ "PARTNER_UNANIMITY" := by
  cases a with
  | missing => cases h; simp
  | corrupt => cases h; simp
  | val sd =>
    simp only [IcSim.rule_verdict_score] at h
    split at h
    · cases h; simp
    · obtain ⟨sv, _, h⟩ := exceptBind_ok h
      split at h
      · obtain ⟨inR, _, h⟩ := exceptBind_ok h
        rcases ifExcept_inv h with h | h
        · cases h
          intro w hw
          rcases List.mem_singleton.mp hw with rfl
          exact (by decide : ("VERDICT_SCORE_MISMATCH" : String) ≠ "PARTNER_UNANIMITY")
        · cases h; simp
      · cases h; simp

/-- Codes of ic-sim check 4b. -/
theorem ic_consensus_code (a b : Artifact) (l : List Warning)
    (h : IcSim.rule_consensus_score a b = .ok l) :
    ∀ w ∈ l, w.code ≠ "PARTNER_UNANIMITY" := by
  cases a with
  | missing => cases h; simp
  | corrupt => cases h; simp
  | val d =>
    cases b with
    | missing => cases h; simp
    | corrupt => cases h; simp
    | val sd =>
      simp only [IcSim.rule_consensus_score] at h
      split at h
      · cases h; simp
      · obtain ⟨cv, _, h⟩ := exceptBind_ok h
        obtain ⟨sv, _, h⟩ := exceptBind_ok h
        rcases ifExcept_inv h with h | h
        · obtain ⟨cv2, _, h⟩ := exceptBind_ok h
          obtain ⟨sv2, _, h⟩ := exceptBind_ok h
          cases h
          intro w hw
          rcases List.mem_singleton.mp hw with rfl
          exact (by decide : ("CONSENSUS_SCORE_MISMATCH" : String) ≠ "PARTNER_UNANIMITY")
        · cases h; simp

/-- Codes of ic-sim check 4c. -/
theorem ic_unanimous_code (a : Artifact) (l : List Warning)
    (h : IcSim.rule_unanimous_mismatch a = .ok l) :
    ∀ w ∈ l, w.code ≠ "PARTNER_UNANIMITY" := by
  cases a with
  | missing => cases h; simp
  | corrupt => cases h; simp
  | val d =>
    simp only [IcSim.rule_unanimous_mismatch] at h
    split at h
    · cases h; simp
    · obtain ⟨cv, _, h⟩ := exceptBind_ok h
      obtain ⟨pvv, _, h⟩ := exceptBind_ok h
      rcases ifExcept_inv h with h | h
      · rcases ifExcept_inv h with h | h
        · obtain ⟨cv2, _, h⟩ := exceptBind_ok h
          cases h
          intro w hw
          rcases List.mem_singleton.mp hw with rfl
          exact (by decide : ("UNANIMOUS_VERDICT_MISMATCH" : String) ≠ "PARTNER_UNANIMITY")
        · cases h; simp
      · cases h; simp

/-- Codes of ic-sim check 6. -/
theorem ic_zero_applicable_code (a : Artifact) (l : List Warning)
    (h : IcSim.rule_zero_applicable a = .ok l) :
    ∀ w ∈ l, w.code ≠ "PARTNER_UNANIMITY" := by
  cases a with
  | missing => cases h; simp
  | corrupt => cases h; simp
  | val sd =>
    simp only [IcSim.rule_zero_applicable] at h
    split at h
    · cases h; simp
    · obtain ⟨sv, _, h⟩ := exceptBind_ok h
      rcases ifExcept_inv h with h | h
      · cases h
        intro w hw
        rcases List.mem_singleton.mp hw with rfl
        exact (by decide : ("ZERO_APPLICABLE" : String) ≠ "PARTNER_UNANIMITY")
      · cases h; simp

/-- Codes of one import entry of ic-sim check 7. -/
theorem ic_staleDate_code (now : PyNum) (imp : JVal) (s : String) (l : List Warning)
    (h : IcSim.staleDate now imp s = .ok l) :
    ∀ w ∈ l, w.code ≠ "PARTNER_UNANIMITY" := by
  unfold IcSim.staleDate at h
  cases hpd : parseDate10 s with
  | some day =>
    rw [hpd] at h
    rcases ifExcept_inv h with h | h
    · obtain ⟨src, _, h⟩ := exceptBind_ok h
      cases h
      intro w hw
      rcases List.mem_singleton.mp hw with rfl
      exact (by decide : ("STALE_IMPORT" : String) ≠ "PARTNER_UNANIMITY")
    · cases h; simp
  | none => rw [hpd] at h; cases h; simp

/-- Codes of one import entry of ic-sim check 7. -/
theorem ic_staleOne_code (now : PyNum) (imp : JVal) (l : List Warning)
    (h : IcSim.staleOne now imp = .ok l) :
    ∀ w ∈ l, w.code ≠ "PARTNER_UNANIMITY" := by
  intro w hw
  unfold IcSim.staleOne at h
  obtain ⟨dv, _, h⟩ := exceptBind_ok h
  rcases ifExcept_inv h with h | h
  · cases dv with
    | str s => exact ic_staleDate_code now imp s l h w hw
    | null => exact Except.noConfusion h
    | bool b => exact Except.noConfusion h
    | num q => exact Except.noConfusion h
    | arr xs => exact Except.noConfusion h
    | obj fs => exact Except.noConfusion h
  · cases h; exact absurd hw (List.not_mem_nil _)

/-- Codes of the import loop of ic-sim check 7. -/
theorem ic_staleLoop_code (now : PyNum) (imps : List JVal) (l : List Warning)
    (h : IcSim.staleLoop now imps = .ok l) :
    ∀ w ∈ l, w.code ≠ "PARTNER_UNANIMITY" := by
  induction imps generalizing l with
  | nil => cases h; simp
  | cons imp rest ih =>
    unfold IcSim.staleLoop at h
    obtain ⟨here, hhere, h⟩ := exceptBind_ok h
    obtain ⟨more, hmore, h⟩ := exceptBind_ok h
    cases h
    intro w hw
    rcases List.mem_append.mp hw with hw | hw
    · exact ic_staleOne_code now imp here hhere w hw
    · exact ih more hmore w hw

/-- Codes of ic-sim check 7. -/
theorem ic_stale_code (a : Artifact) (now : PyNum) (l : List Warning)
    (h : IcSim.rule_stale_import a now = .ok l) :
    ∀ w ∈ l, w.code ≠ "PARTNER_UNANIMITY" := by
  cases a with
  | missing => cases h; simp
  | corrupt => cases h; simp
  | val p =>
    simp only [IcSim.rule_stale_import] at h
    split at h
    · cases h; simp
    · obtain ⟨iv, _, h⟩ := exceptBind_ok h
      exact ic_staleLoop_code now _ l h

/-- Codes of one scored dimension of ic-sim check 8. -/
theorem ic_lowEvidenceOne_code (item : JVal) (l : List Warning)
    (h : IcSim.lowEvidenceOne item = .ok l) :
    ∀ w ∈ l, w.code ≠ "PARTNER_UNANIMITY" := by
  unfold IcSim.lowEvidenceOne at h
  obtain ⟨st, _, h⟩ := exceptBind_ok h
  rcases ifExcept_inv h with h | h
  · obtain ⟨ev, _, h⟩ := exceptBind_ok h
    rcases ifExcept_inv h with h | h
    · obtain ⟨idv, _, h⟩ := exceptBind_ok h
      cases h
      intro w hw
      rcases List.mem_singleton.mp hw with rfl
      exact (by decide : ("LOW_EVIDENCE" : String) ≠ "PARTNER_UNANIMITY")
    · cases h; simp
  · cases h; simp

/-- Codes of the item loop of ic-sim check 8. -/
theorem ic_lowEvidenceLoop_code (items : List JVal) (l : List Warning)
    (h : IcSim.lowEvidenceLoop items = .ok l) :
    ∀ w ∈ l, w.code ≠ "PARTNER_UNANIMITY" := by
  induction items generalizing l with
  | nil => cases h; simp
  | cons item rest ih =>
    unfold IcSim.lowEvidenceLoop at h
    obtain ⟨here, hhere, h⟩ := exceptBind_ok h
    obtain ⟨more, hmore, h⟩ := exceptBind_ok h
    cases h
    intro w hw
    rcases List.mem_append.mp hw with hw | hw
    · exact ic_lowEvidenceOne_code item here hhere w hw
    · exact ih more hmore w hw

/-- Codes of ic-sim check 8. -/
theorem ic_low_evidence_code (a : Artifact) (l : List Warning)
    (h : IcSim.rule_low_evidence a = .ok l) :
    ∀ w ∈ l, w.code ≠ "PARTNER_UNANIMITY" := by
  cases a with
  | missing => cases h; simp
  | corrupt => cases h; simp
  | val sd =>
    simp only [IcSim.rule_low_evidence] at h
    split at h
    · cases h; simp
    · obtain ⟨iv, _, h⟩ := exceptBind_ok h
      exact ic_lowEvidenceLoop_code _ l h

/-- Codes of ic-sim check 9. -/
theorem ic_fund_validation_code (a : Artifact) (l : List Warning)
    (h : IcSim.rule_fund_validation a = .ok l) :
    ∀ w ∈ l, w.code ≠ "PARTNER_UNANIMITY" := by
  cases a with
  | missing => cases h; simp
  | corrupt => cases h; simp
  | val fp =>
    simp only [IcSim.rule_fund_validation] at h
    split at h
    · cases h; simp
    · obtain ⟨vv, _, h⟩ := exceptBind_ok h
      rcases ifExcept_inv h with h | h
      · cases h
        intro w hw
        rcases List.mem_singleton.mp hw with rfl
        exact (by decide : ("FUND_VALIDATION_ERROR" : String) ≠ "PARTNER_UNANIMITY")
      · cases h; simp

/-- Codes of ic-sim check 10. -/
theorem ic_degraded_code (a : Artifact) (get : String → Artifact) (l : List Warning)
    (h : IcSim.rule_degraded a get = .ok l) :
    ∀ w ∈ l, w.code ≠ "PARTNER_UNANIMITY" := by
  cases a with
  | missing => cases h; simp
  | corrupt => cases h; simp
  | val d =>
    simp only [IcSim.rule_degraded] at h
    split at h
    · cases h; simp
    · obtain ⟨mode, _, h⟩ := exceptBind_ok h
      rcases ifExcept_inv h with h | h
      · cases h
        intro w hw
        rw [List.mem_flatten] at hw
        obtain ⟨l0, hl0, hw⟩ := hw
        rw [List.mem_map] at hl0
        obtain ⟨pa, _, rfl⟩ := hl0
        cases hg : get pa with
        | missing =>
          rw [hg] at hw
          rcases List.mem_singleton.mp hw with rfl
          exact (by decide : ("DEGRADED_ASSESSMENT" : String) ≠ "PARTNER_UNANIMITY")
        | corrupt => rw [hg] at hw; simp at hw
        | val v => rw [hg] at hw; simp at hw
      · cases h; simp

/-- Codes of the per-file body of ic-sim check 10b. -/
theorem ic_shallowFor_code (pa : String) (pd : JVal) (l : List Warning)
    (h : IcSim.shallowFor pa pd = .ok l) :
    ∀ w ∈ l, w.code ≠ "PARTNER_UNANIMITY" := by
  unfold IcSim.shallowFor at h
  obtain ⟨cpv, _, h⟩ := exceptBind_ok h
  obtain ⟨kcv, _, h⟩ := exceptBind_ok h
  obtain ⟨rv, _, h⟩ := exceptBind_ok h
  rcases ifExcept_inv h with h | h
  · cases h
    intro w hw
    rcases List.mem_singleton.mp hw with rfl
    exact (by decide : ("SHALLOW_ASSESSMENT" : String) ≠ "PARTNER_UNANIMITY")
  · cases h; simp

/-- Codes of one partner-assessment slot of ic-sim check 10b. -/
theorem ic_shallowHere_code (get : String → Artifact) (pa : String) (l : List Warning)
    (h : IcSim.shallowHere get pa = .ok l) :
    ∀ w ∈ l, w.code ≠ "PARTNER_UNANIMITY" := by
  unfold IcSim.shallowHere at h
  cases hg : get pa with
  | val pd =>
    rw [hg] at h
    rcases ifExcept_inv h with h | h
    · cases h; simp
    · exact ic_shallowFor_code pa pd l h
  | missing => rw [hg] at h; cases h; simp
  | corrupt => rw [hg] at h; cases h; simp

/-- Codes of the file loop of ic-sim check 10b. -/
theorem ic_shallowLoop_code (get : String → Artifact) (pas : List String) (l : List Warning)
    (h : IcSim.shallowLoop get pas = .ok l) :
    ∀ w ∈ l, w.code ≠ "PARTNER_UNANIMITY" := by
  induction pas generalizing l with
  | nil => cases h; simp
  | cons pa rest ih =>
    unfold IcSim.shallowLoop at h
    obtain ⟨here, hhere, h⟩ := exceptBind_ok h
    obtain ⟨more, hmore, h⟩ := exceptBind_ok h
    cases h
    intro w hw
    rcases List.mem_append.mp hw with hw | hw
    · exact ic_shallowHere_code get pa here hhere w hw
    · exact ih more hmore w hw

/-- Codes of ic-sim check 10b. -/
theorem ic_shallow_code (a : Artifact) (get : String → Artifact) (l : List Warning)
    (h : IcSim.rule_shallow a get = .ok l) :
    ∀ w ∈ l, w.code ≠ "PARTNER_UNANIMITY" := by
  cases a with
  | missing => cases h; simp
  | corrupt => cases h; simp
  | val d =>
    simp only [IcSim.rule_shallow] at h
    split at h
    · cases h; simp
    · obtain ⟨mode, _, h⟩ := exceptBind_ok h
      rcases ifExcept_inv h with h | h
      · exact ic_shallowLoop_code get _ l h
      · cases h; simp

/-- Codes of ic-sim check 10c. -/
theorem ic_high_na_code (a : Artifact) (l : List Warning)
    (h : IcSim.rule_high_na a = .ok l) :
    ∀ w ∈ l, w.code ≠ "PARTNER_UNANIMITY" := by
  cases a with
  | missing => cases h; simp
  | corrupt => cases h; simp
  | val sd =>
    simp only [IcSim.rule_high_na] at h
    split at h
    · cases h; simp
    · obtain ⟨iv, _, h⟩ := exceptBind_ok h
      rcases ifExcept_inv h with h | h
      · cases h
        intro w hw
        rcases List.mem_singleton.mp hw with rfl
        exact (by decide : ("HIGH_NA_COUNT" : String) ≠ "PARTNER_UNANIMITY")
      · cases h; simp

/-- Codes of one artifact slot of ic-sim check 11. -/
theorem ic_schemaOne_code (get : String → Artifact) (name : String) (expected : List String)
    (l : List Warning) (h : IcSim.schemaOne get name expected = .ok l) :
    ∀ w ∈ l, w.code ≠ "PARTNER_UNANIMITY" := by
  unfold IcSim.schemaOne at h
  cases hg : get name with
  | val a =>
    rw [hg] at h
    rcases ifExcept_inv h with h | h
    · cases h; simp
    · obtain ⟨keys, _, h⟩ := exceptBind_ok h
      cases h
      intro w hw
      rcases List.mem_append.mp hw with hw | hw
      · split at hw
        · rcases List.mem_singleton.mp hw with rfl
          exact (by decide : ("SCHEMA_DRIFT" : String) ≠ "PARTNER_UNANIMITY")
        · exact absurd hw (List.not_mem_nil _)
      · split at hw
        · rcases List.mem_singleton.mp hw with rfl
          exact (by decide : ("SCHEMA_DRIFT" : String) ≠ "PARTNER_UNANIMITY")
        · exact absurd hw (List.not_mem_nil _)
  | missing => rw [hg] at h; cases h; simp
  | corrupt => rw [hg] at h; cases h; simp

/-- Codes of the artifact loop of ic-sim check 11. -/
theorem ic_schemaLoop_code (get : String → Artifact) (tbl : List (String × List String))
    (l : List Warning) (h : IcSim.schemaLoop get tbl = .ok l) :
    ∀ w ∈ l, w.code ≠ "PARTNER_UNANIMITY" := by
  induction tbl generalizing l with
  | nil => cases h; simp
  | cons p rest ih =>
    obtain ⟨name, expected⟩ := p
    unfold IcSim.schemaLoop at h
    obtain ⟨here, hhere, h⟩ := exceptBind_ok h
    obtain ⟨more, hmore, h⟩ := exceptBind_ok h
    cases h
    intro w hw
    rcases List.mem_append.mp hw with hw | hw
    · exact ic_schemaOne_code get name expected here hhere w hw
    · exact ih more hmore w hw

/-- Codes of ic-sim check 12. -/
theorem ic_stage_scope_code (a : Artifact) (l : List Warning)
    (h : IcSim.rule_stage_scope a = .ok l) :
    ∀ w ∈ l, w.code ≠ "PARTNER_UNANIMITY" := by
  cases a with
  | missing => cases h; simp
  | corrupt => cases h; simp
  | val sp =>
    simp only [IcSim.rule_stage_scope] at h
    split at h
    · cases h; simp
    · obtain ⟨sv, _, h⟩ := exceptBind_ok h
      obtain ⟨stage, _, h⟩ := exceptBind_ok h
      rcases ifExcept_inv h with h | h
      · cases h
        intro w hw
        rcases List.mem_singleton.mp hw with rfl
        exact (by decide : ("STAGE_OUT_OF_SCOPE" : String) ≠ "PARTNER_UNANIMITY")
      · cases h; simp

/-- Codes of ic-sim check 13. -/
theorem ic_sequential_code (a : Artifact) (l : List Warning)
    (h : IcSim.rule_sequential_fallback a = .ok l) :
    ∀ w ∈ l, w.code ≠ "PARTNER_UNANIMITY" := by
  cases a with
  | missing => cases h; simp
  | corrupt => cases h; simp
  | val d =>
    simp only [IcSim.rule_sequential_fallback] at h
    split at h
    · cases h; simp
    · obtain ⟨mode, _, h⟩ := exceptBind_ok h
      rcases ifExcept_inv h with h | h
      · obtain ⟨intent, _, h⟩ := exceptBind_ok h
        rcases ifExcept_inv h with h | h
        · cases h
          intro w hw
          rcases List.mem_singleton.mp hw with rfl
          exact (by decide : ("SEQUENTIAL_FALLBACK" : String) ≠ "PARTNER_UNANIMITY")
        · cases h; simp
      · cases h; simp

/-- Inverting an `if` over `Except` results, keeping the branch condition. -/
theorem ifExcept_keep {ε α : Type} {c : Prop} [Decidable c] {x y : Except ε α} {b : α}
    (h : (if c then x else y) = .ok b) : (c ∧ x = .ok b) ∨ (¬c ∧ y = .ok b) := by
  split at h
  · rename_i hc
    exact Or.inl ⟨hc, h⟩
  · rename_i hc
    exact Or.inr ⟨hc, h⟩

/-- A Bool that is not true is false. -/
theorem bool_eq_false {b : Bool} (h : ¬(b = true)) : b = false := by
  cases b
  · rfl
  · exact absurd rfl h

set_option maxHeartbeats 1600000 in
/-- Split of the ic-sim `validate_artifacts` output into its 17 parts. -/
theorem ic_validate_decomp (arts : IcSim.Arts) (now : PyNum) (ws : List Warning)
    (h : IcSim.validate_artifacts arts now = .ok ws) :
    ∃ l2 l3 l4 l4b l4c l5 l6 l7 l8 l9 l10 l10b l10c l11 l12 l13,
      IcSim.rule_blocking_conflict arts.conflict_check = .ok l2
      ∧ IcSim.rule_orphaned arts.conflict_check arts.fund_profile = .ok l3
      ∧ IcSim.rule_verdict_score arts.score_dimensions = .ok l4
      ∧ IcSim.rule_consensus_score arts.discussion arts.score_dimensions = .ok l4b
      ∧ IcSim.rule_unanimous_mismatch arts.discussion = .ok l4c
      ∧ IcSim.rule_partner_unanimity arts.discussion = .ok l5
      ∧ IcSim.rule_zero_applicable arts.score_dimensions = .ok l6
      ∧ IcSim.rule_stale_import arts.prior_artifacts now = .ok l7
      ∧ IcSim.rule_low_evidence arts.score_dimensions = .ok l8
      ∧ IcSim.rule_fund_validation arts.fund_profile = .ok l9
      ∧ IcSim.rule_degraded arts.discussion arts.get = .ok l10
      ∧ IcSim.rule_shallow arts.discussion arts.get = .ok l10b
      ∧ IcSim.rule_high_na arts.score_dimensions = .ok l10c
      ∧ IcSim.schemaLoop arts.get IcSim.EXPECTED_KEYS = .ok l11
      ∧ IcSim.rule_stage_scope arts.startup_profile = .ok l12
      ∧ IcSim.rule_sequential_fallback arts.discussion = .ok l13
      ∧ ws = requiredPresence IcSim.WARNING_SEVERITY IcSim.REQUIRED_ARTIFACTS arts.get
          ++ l2 ++ l3 ++ l4 ++ l4b ++ l4c ++ l5 ++ l6 ++ l7 ++ l8 ++ l9
          ++ l10 ++ l10b ++ l10c ++ l11 ++ l12 ++ l13 := by
  unfold IcSim.validate_artifacts at h
  obtain ⟨l2, h2, h⟩ := exceptBind_ok h
  obtain ⟨l3, h3, h⟩ := exceptBind_ok h
  obtain ⟨l4, h4, h⟩ := exceptBind_ok h
  obtain ⟨l4b, h4b, h⟩ := exceptBind_ok h
  obtain ⟨l4c, h4c, h⟩ := exceptBind_ok h
  obtain ⟨l5, h5, h⟩ := exceptBind_ok h
  obtain ⟨l6, h6, h⟩ := exceptBind_ok h
  obtain ⟨l7, h7, h⟩ := exceptBind_ok h
  obtain ⟨l8, h8, h⟩ := exceptBind_ok h
  obtain ⟨l9, h9, h⟩ := exceptBind_ok h
  obtain ⟨l10, h10, h⟩ := exceptBind_ok h
  obtain ⟨l10b, h10b, h⟩ := exceptBind_ok h
  obtain ⟨l10c, h10c, h⟩ := exceptBind_ok h
  obtain ⟨l11, h11, h⟩ := exceptBind_ok h
  obtain ⟨l12, h12, h⟩ := exceptBind_ok h
  obtain ⟨l13, h13, h⟩ := exceptBind_ok h
  cases h
  exact ⟨l2, l3, l4, l4b, l4c, l5, l6, l7, l8, l9, l10, l10b, l10c, l11, l12, l13,
    h2, h3, h4, h4b, h4c, h5, h6, h7, h8, h9, h10, h10b, h10c, h11, h12, h13, rfl⟩

/-- Any `PARTNER_UNANIMITY` finding of ic-sim check 5 is the literal
finding, and its firing condition held: a usable discussion with exactly
three partner verdicts, all equal under Python `==`, and SOME TWO of the
three whitespace-normalized rationales identical. -/
theorem rule_pu_forward (a : Artifact) (l : List Warning)
    (h : IcSim.rule_partner_unanimity a = .ok l) (w : Warning) (hw : w ∈ l)
    (hcode : w.code = "PARTNER_UNANIMITY") :
    w = IcSim._warn "PARTNER_UNANIMITY"
        ("All 3 partners agree on verdict AND share identical"
          ++ " rationales — flags generation collapse")
    ∧ ∃ d pvv verdicts rationales normalized,
        a = .val d ∧ _is_stub d = false
        ∧ pyGet d "partner_verdicts" .null = .ok pvv
        ∧ (_as_list pvv).length = 3
        ∧ IcSim.pvGetAll "verdict" .null (_as_list pvv) = .ok verdicts
        ∧ IcSim.lenSetEq1 verdicts = .ok true
        ∧ IcSim.pvGetAll "rationale" (.str "") (_as_list pvv) = .ok rationales
        ∧ IcSim.norm_ws_all rationales = .ok normalized
        ∧ IcSim.anyTwoEq normalized = true := by
  cases a with
  | missing => cases h; exact absurd hw (List.not_mem_nil _)
  | corrupt => cases h; exact absurd hw (List.not_mem_nil _)
  | val d =>
    simp only [IcSim.rule_partner_unanimity] at h
    split at h
    · cases h; exact absurd hw (List.not_mem_nil _)
    · rename_i hstub0
      obtain ⟨pvv, hpvv, h⟩ := exceptBind_ok h
      obtain ⟨mode, hmode, h⟩ := exceptBind_ok h
      rcases ifExcept_keep h with ⟨hlen, h⟩ | ⟨_, h⟩
      · obtain ⟨verdicts, hv, h⟩ := exceptBind_ok h
        obtain ⟨rationales, hr, h⟩ := exceptBind_ok h
        obtain ⟨one, hone, h⟩ := exceptBind_ok h
        rcases ifExcept_keep h with ⟨hone_t, h⟩ | ⟨_, h⟩
        · obtain ⟨normalized, hn, h⟩ := exceptBind_ok h
          rcases ifExcept_keep h with ⟨hany, h⟩ | ⟨_, h⟩
          · cases h
            rcases List.mem_singleton.mp hw with rfl
            exact ⟨rfl, d, pvv, verdicts, rationales, normalized, rfl,
              bool_eq_false hstub0, hpvv, beq_iff_eq.mp hlen, hv,
              hone_t ▸ hone, hr, hn, hany⟩
          · rcases ifExcept_inv h with h | h
            · cases h
              rcases List.mem_singleton.mp hw with rfl
              exact absurd hcode (by decide)
            · cases h; exact absurd hw (List.not_mem_nil _)
        · cases h; exact absurd hw (List.not_mem_nil _)
      · cases h; exact absurd hw (List.not_mem_nil _)

/-- When the firing condition of ic-sim check 5 holds, the check produces
exactly the `PARTNER_UNANIMITY` finding. -/
theorem rule_pu_backward (a : Artifact) (l : List Warning)
    (h : IcSim.rule_partner_unanimity a = .ok l)
    (hc : ∃ d pvv verdicts rationales normalized,
        a = .val d ∧ _is_stub d = false
        ∧ pyGet d "partner_verdicts" .null = .ok pvv
        ∧ (_as_list pvv).length = 3
        ∧ IcSim.pvGetAll "verdict" .null (_as_list pvv) = .ok verdicts
        ∧ IcSim.lenSetEq1 verdicts = .ok true
        ∧ IcSim.pvGetAll "rationale" (.str "") (_as_list pvv) = .ok rationales
        ∧ IcSim.norm_ws_all rationales = .ok normalized
        ∧ IcSim.anyTwoEq normalized = true) :
    l = [IcSim._warn "PARTNER_UNANIMITY"
        ("All 3 partners agree on verdict AND share identical"
          ++ " rationales — flags generation collapse")] := by
  obtain ⟨d, pvv, verdicts, rationales, normalized, had, hstub, hpvv, hlen,
    hv, hone, hr, hn, hany⟩ := hc
  subst had
  simp only [IcSim.rule_partner_unanimity] at h
  split at h
  · rename_i hst
    rw [hstub] at hst
    exact Bool.noConfusion hst
  · obtain ⟨pvv2, hpvv2, h⟩ := exceptBind_ok h
    rw [hpvv] at hpvv2
    injection hpvv2 with hpe
    subst hpe
    obtain ⟨mode, hmode, h⟩ := exceptBind_ok h
    rcases ifExcept_keep h with ⟨_, h⟩ | ⟨hlf, h⟩
    · obtain ⟨verdicts2, hv2, h⟩ := exceptBind_ok h
      rw [hv] at hv2
      injection hv2 with hve
      subst hve
      obtain ⟨rationales2, hr2, h⟩ := exceptBind_ok h
      rw [hr] at hr2
      injection hr2 with hre
      subst hre
      obtain ⟨one2, hone2, h⟩ := exceptBind_ok h
      rw [hone] at hone2
      injection hone2 with hoe
      subst hoe
      rcases ifExcept_keep h with ⟨_, h⟩ | ⟨hf, h⟩
      · obtain ⟨normalized2, hn2, h⟩ := exceptBind_ok h
        rw [hn] at hn2
        injection hn2 with hne
        subst hne
        rcases ifExcept_keep h with ⟨_, h⟩ | ⟨hf2, h⟩
        · cases h; rfl
        · exact absurd hany hf2
      · exact absurd rfl hf
    · have hlb : ((_as_list pvv).length == 3) = true := by
        rw [hlen]
        rfl
      exact absurd hlb hlf

set_option maxHeartbeats 1600000 in
/-- C10. In the ic-sim variant, a medium-severity `PARTNER_UNANIMITY`
finding is produced iff the discussion artifact is usable, holds exactly
three partner verdicts that all agree (Python `len(set(...)) == 1`), and
AT LEAST TWO of the three whitespace-normalized free-text rationales are
identical — the code scans all pairs, so the spec's "the rationales are
identical" (all three) is corrected to "some two are identical". -/
theorem partner_unanimity_condition (arts : IcSim.Arts) (now : PyNum) (ws : List Warning)
    (h : IcSim.validate_artifacts arts now = .ok ws) :
    (∃ w ∈ ws, w.code = "PARTNER_UNANIMITY" ∧ w.severity = "medium")
      ↔ ∃ d pvv verdicts rationales normalized,
          arts.discussion = .val d ∧ _is_stub d = false
          ∧ pyGet d "partner_verdicts" .null = .ok pvv
          ∧ (_as_list pvv).length = 3
          ∧ IcSim.pvGetAll "verdict" .null (_as_list pvv) = .ok verdicts
          ∧ IcSim.lenSetEq1 verdicts = .ok true
          ∧ IcSim.pvGetAll "rationale" (.str "") (_as_list pvv) = .ok rationales
          ∧ IcSim.norm_ws_all rationales = .ok normalized
          ∧ IcSim.anyTwoEq normalized = true := by
  obtain ⟨l2, l3, l4, l4b, l4c, l5, l6, l7, l8, l9, l10, l10b, l10c, l11, l12, l13,
    h2, h3, h4, h4b, h4c, h5, h6, h7, h8, h9, h10, h10b, h10c, h11, h12, h13, rfl⟩ :=
    ic_validate_decomp arts now ws h
  constructor
  · rintro ⟨w, hw, hcode, hsev⟩
    simp only [List.append_assoc, List.mem_append] at hw
    rcases hw with hw | hw | hw | hw | hw | hw | hw | hw | hw | hw | hw | hw | hw | hw | hw | hw | hw
    · rcases requiredPresence_code_mem _ _ _ w hw with hc | hc <;>
        (rw [hcode] at hc; exact absurd hc (by decide))
    · exact absurd hcode (ic_blocking_code _ _ h2 w hw)
    · exact absurd hcode (ic_orphaned_code _ _ _ h3 w hw)
    · exact absurd hcode (ic_verdict_score_code _ _ h4 w hw)
    · exact absurd hcode (ic_consensus_code _ _ _ h4b w hw)
    · exact absurd hcode (ic_unanimous_code _ _ h4c w hw)
    · exact (rule_pu_forward _ _ h5 w hw hcode).2
    · exact absurd hcode (ic_zero_applicable_code _ _ h6 w hw)
    · exact absurd hcode (ic_stale_code _ _ _ h7 w hw)
    · exact absurd hcode (ic_low_evidence_code _ _ h8 w hw)
    · exact absurd hcode (ic_fund_validation_code _ _ h9 w hw)
    · exact absurd hcode (ic_degraded_code _ _ _ h10 w hw)
    · exact absurd hcode (ic_shallow_code _ _ _ h10b w hw)
    · exact absurd hcode (ic_high_na_code _ _ h10c w hw)
    · exact absurd hcode (ic_schemaLoop_code _ _ _ h11 w hw)
    · exact absurd hcode (ic_stage_scope_code _ _ h12 w hw)
    · exact absurd hcode (ic_sequential_code _ _ h13 w hw)
  · intro hc
    have hl5 := rule_pu_backward _ _ h5 hc
    refine ⟨IcSim._warn "PARTNER_UNANIMITY"
      ("All 3 partners agree on verdict AND share identical"
        ++ " rationales — flags generation collapse"), ?_, rfl, rfl⟩
    simp only [List.append_assoc, List.mem_append]
    exact Or.inr (Or.inr (Or.inr (Or.inr (Or.inr (Or.inr (Or.inl
      (by rw [hl5]; exact List.mem_singleton.mpr rfl)))))))

/-- C10 witness: on `c10Arts` the condition holds concretely (three
"invest" verdicts; normalized rationales "Great team", "Great team",
"Too risky" with the first two identical), so the theorem yields the
medium `PARTNER_UNANIMITY` finding. -/
theorem partner_unanimity_condition_witness :
    ∃ w ∈ c10Ws, w.code = "PARTNER_UNANIMITY" ∧ w.severity = "medium" :=
  (partner_unanimity_condition c10Arts (PyNum.ofInt 0) c10Ws (by rfl)).mpr
    ⟨c10Disc,
     .arr [ .obj [("verdict", .str "invest"), ("rationale", .str "Great team")],
            .obj [("verdict", .str "invest"), ("rationale", .str "Great  team")],
            .obj [("verdict", .str "invest"), ("rationale", .str "Too risky")]],
     [.str "invest", .str "invest", .str "invest"],
     [.str "Great team", .str "Great  team", .str "Too risky"],
     ["Great team", "Great team", "Too risky"],
     rfl, rfl, rfl, rfl, rfl, rfl, rfl, rfl, rfl⟩

/-- C10 counterexample to the claim as stated: on `c10Arts` the three
normalized rationales are NOT all identical ("Too risky" differs), yet the
`PARTNER_UNANIMITY` finding IS produced — the code only requires some two
rationales to coincide. -/
theorem partner_unanimity_not_all_identical :
    IcSim.validate_artifacts c10Arts (PyNum.ofInt 0) = .ok c10Ws
    ∧ (⟨"PARTNER_UNANIMITY",
        "All 3 partners agree on verdict AND share identical rationales — flags generation collapse",
        "medium"⟩ : Warning) ∈ c10Ws
    ∧ IcSim.norm_ws_all [.str "Great team", .str "Great  team", .str "Too risky"]
        = .ok ["Great team", "Great team", "Too risky"]
    ∧ IcSim._normalize_ws "Great  team" = IcSim._normalize_ws "Great team"
    ∧ IcSim._normalize_ws "Too risky" ≠ IcSim._normalize_ws "Great team" :=
  ⟨rfl, by decide, rfl, rfl, by decide⟩
